import Mathlib

/-!
# RgbOnRest: the Corsair SDK engine

A shallow embedding of `APIServer/SDKEngine/CorsairSDK/CorsairSDK.cpp` and the
properties of its colour dispatch.

The vendor library (iCUE SDK) is not part of the program.  It is modelled as an
environment that answers every call; an answer may depend on the whole sequence
of calls made so far, the call being answered included.  Every member function
of `CorsairSDK` is a function of the object before the call and the calls made
so far, and yields the value returned or the exception thrown, the object after
the call and the calls made so far after it.
-/

namespace RgbOnRest

/-! ## Types of the vendor header and of `Defines.h` -/

/-- Modelled from the spec: the enum `DeviceType` is declared in `Defines.h`, which
is not among the sources.  The spec calls it a closed enum; its members are the
ones `CorsairSDK.cpp` names. -/
inductive DeviceType
  | Mouse
  | Headset
  | Keyboard
  | Mousemat
  | HeadsetStand
  | GPU
  | ALL
  | Mainboard
  | Cooler
  | RAM
  | ETC
  | UnknownDevice
  | Microphone
  deriving DecidableEq, Repr

/-- The vendor enum `CorsairDeviceType`: the members the source names, and
`unnamed` for any other value the vendor library may report. -/
inductive CorsairDeviceType
  | CDT_Unknown
  | CDT_Mouse
  | CDT_Keyboard
  | CDT_Headset
  | CDT_MouseMat
  | CDT_HeadsetStand
  | CDT_CommanderPro
  | CDT_LightingNodePro
  | CDT_MemoryModule
  | CDT_Cooler
  | CDT_Motherboard
  | CDT_GraphicsCard
  | unnamed (code : Int)
  deriving DecidableEq, Repr

/-- The vendor enum `CorsairError`: the members the source names, and `unnamed`
for any other value. -/
inductive CorsairError
  | CE_Success
  | CE_IncompatibleProtocol
  | CE_ServerNotFound
  | CE_InvalidArguments
  | CE_NoControl
  | CE_ProtocolHandshakeMissing
  | unnamed (code : Int)
  deriving DecidableEq, Repr

/-- Modelled from the spec: the exception classes of the namespace `SDKExceptions`
are declared in a header that is not among the sources.  They are the error
kinds of the specification, under the names with which `CorsairSDK.cpp` throws
them.  `OutOfRange` is the `std::out_of_range` of `std::map::at` on a key that
is not in the map. -/
inductive SDKException
  | SDKAlreadyConnected
  | SDKConnectionFailed
  | SDKVersionMismatch
  | SDKServiceNotRunning
  | SDKUnexpectedError
  | SDKNotConnected
  | InvalidDeviceType
  | InvalidRGBValue
  | SomeRGBFailed
  | AllRGBFailed
  | OutOfRange
  deriving DecidableEq, Repr

/-- The vendor struct `CorsairLedColor`.  A LED id (`CorsairLedId`) is a
non-negative enum value. -/
structure CorsairLedColor where
  ledId : Nat
  r : Int
  g : Int
  b : Int
  deriving DecidableEq, Repr

/-- The fields of the vendor struct `CorsairDeviceInfo` that the source reads. -/
structure CorsairDeviceInfo where
  type : CorsairDeviceType
  model : String
  deriving DecidableEq, Repr

/-- Modelled from the spec: the struct `Device` is declared in `Defines.h`, which
is not among the sources.  It has the four fields of the specification, under
the names with which `setAllDeviceInfo` fills them. -/
structure Device where
  sdkName : String
  name : String
  deviceType : DeviceType
  deviceIndex : Int
  deriving DecidableEq, Repr

/-- The members of the vendor enum `CorsairLedId` that the source uses by name.
Their values are fixed by the vendor header, which is not among the sources, so
they are parameters. -/
structure LedIdNames where
  CLH_LeftLogo : Nat
  CLH_RightLogo : Nat

/-- A call into the vendor library.  A buffered colour write records the device
index, the `size` argument and the `size` first entries of the array passed,
which are the ones the library reads. -/
inductive VendorCall
  | CorsairPerformProtocolHandshake
  | CorsairGetLastError
  | CorsairRequestControl
  | CorsairReleaseControl
  | CorsairGetDeviceCount
  | CorsairGetDeviceInfo (i : Int)
  | CorsairSetLedsColorsBufferByDeviceIndex (deviceIndex : Int) (size : Nat)
      (ledsColors : List CorsairLedColor)
  | CorsairSetLedsColorsFlushBuffer
  deriving DecidableEq, Repr

/-- The vendor library as the program sees it.  Each field gives the value
returned by the last call of the sequence of calls made so far: `boolResult` for
the calls returning `bool`, `lastError` for `CorsairGetLastError`, `deviceCount`
for `CorsairGetDeviceCount` and `deviceInfo` for `CorsairGetDeviceInfo`. -/
structure Vendor where
  boolResult : List VendorCall → Bool
  lastError : List VendorCall → CorsairError
  deviceCount : List VendorCall → Int
  deviceInfo : List VendorCall → CorsairDeviceInfo

/-- The member variables of class `CorsairSDK`.  The `std::map` from device type
to device list is a list of key and value pairs with at most one pair for a
key. -/
structure CorsairSDK where
  sdkName : String
  isConnected : Bool
  devices : List (DeviceType × List Device)
  deriving DecidableEq, Repr

/-- What a member function leaves behind: the value returned or the exception
thrown, the object, and the vendor calls made so far. -/
structure Effect (α : Type) where
  result : Except SDKException α
  self : CorsairSDK
  calls : List VendorCall

/-! ## The device map -/

/-- The lookup `std::map::at`: `none` stands for `std::out_of_range`. -/
def devicesAt : List (DeviceType × List Device) → DeviceType → Option (List Device)
  | [], _ => none
  | (k, v) :: rest, key => if k = key then some v else devicesAt rest key

/-- The insertion `std::map::insert`: a key that is already in the map keeps
its value. -/
def devicesInsert (m : List (DeviceType × List Device)) (key : DeviceType)
    (v : List Device) : List (DeviceType × List Device) :=
  match devicesAt m key with
  | some _ => m
  | none => m ++ [(key, v)]

/-! ## Construction, connection, enumeration -/

/-- The constructor `CorsairSDK::CorsairSDK`. -/
def CorsairSDK.new : CorsairSDK :=
  { sdkName := "Corsair", isConnected := false, devices := [] }

/-- The function `CorsairSDK::translateDeviceType`. -/
def translateDeviceType : CorsairDeviceType → DeviceType
  | .CDT_Unknown => DeviceType.UnknownDevice
  | .CDT_Mouse => DeviceType.Mouse
  | .CDT_Keyboard => DeviceType.Keyboard
  | .CDT_Headset => DeviceType.Headset
  | .CDT_MouseMat => DeviceType.Mousemat
  | .CDT_HeadsetStand => DeviceType.HeadsetStand
  | .CDT_Cooler => DeviceType.Cooler
  | .CDT_Motherboard => DeviceType.Mainboard
  | .CDT_GraphicsCard => DeviceType.GPU
  | .CDT_CommanderPro => DeviceType.ETC
  | .CDT_LightingNodePro => DeviceType.ETC
  | .CDT_MemoryModule => DeviceType.ETC
  | .unnamed _ => DeviceType.ETC

/-- The ten local lists of `setAllDeviceInfo`. -/
structure DeviceLists where
  MouseList : List Device
  KeyboardList : List Device
  HeadsetList : List Device
  MouseMatList : List Device
  HeadsetStandList : List Device
  CoolerList : List Device
  MemoryModuleList : List Device
  MotherBoardList : List Device
  GPUList : List Device
  ETCList : List Device
  deriving DecidableEq, Repr

/-- The ten lists as `setAllDeviceInfo` creates them. -/
def DeviceLists.empty : DeviceLists :=
  ⟨[], [], [], [], [], [], [], [], [], []⟩

/-- The `switch` of `setAllDeviceInfo`: the list that receives the device.  The
`switch` has no `default`, so a type it does not name adds the device to no
list. -/
def pushDevice (ls : DeviceLists) (type : CorsairDeviceType) (tmpDevice : Device) :
    DeviceLists :=
  match type with
  | .CDT_Unknown => { ls with ETCList := ls.ETCList ++ [tmpDevice] }
  | .CDT_Mouse => { ls with MouseList := ls.MouseList ++ [tmpDevice] }
  | .CDT_Keyboard => { ls with KeyboardList := ls.KeyboardList ++ [tmpDevice] }
  | .CDT_Headset => { ls with HeadsetList := ls.HeadsetList ++ [tmpDevice] }
  | .CDT_MouseMat => { ls with MouseMatList := ls.MouseMatList ++ [tmpDevice] }
  | .CDT_HeadsetStand => { ls with HeadsetStandList := ls.HeadsetStandList ++ [tmpDevice] }
  | .CDT_CommanderPro => { ls with ETCList := ls.ETCList ++ [tmpDevice] }
  | .CDT_LightingNodePro => { ls with ETCList := ls.ETCList ++ [tmpDevice] }
  | .CDT_MemoryModule => { ls with MemoryModuleList := ls.MemoryModuleList ++ [tmpDevice] }
  | .CDT_Cooler => { ls with CoolerList := ls.CoolerList ++ [tmpDevice] }
  | .CDT_Motherboard => { ls with MotherBoardList := ls.MotherBoardList ++ [tmpDevice] }
  | .CDT_GraphicsCard => { ls with GPUList := ls.GPUList ++ [tmpDevice] }
  | .unnamed _ => ls

/-- The loop `for (int i = 0 ; i < deviceCount ; i++)` of `setAllDeviceInfo`, with
`todo` iterations left and `i` the loop variable. -/
def enumerateDevices (sdk : Vendor) : Nat → Int → DeviceLists × List VendorCall →
    DeviceLists × List VendorCall
  | 0, _, st => st
  | todo + 1, i, (ls, h) =>
    let h1 := h ++ [VendorCall.CorsairGetDeviceInfo i]
    let curDevice := sdk.deviceInfo h1
    let tmpDevice : Device :=
      { sdkName := "Corsair", name := curDevice.model,
        deviceType := translateDeviceType curDevice.type, deviceIndex := i }
    enumerateDevices sdk todo (i + 1) (pushDevice ls curDevice.type tmpDevice, h1)

/-- The function `CorsairSDK::setAllDeviceInfo`. -/
def setAllDeviceInfo (sdk : Vendor) (self : CorsairSDK) (h : List VendorCall) :
    CorsairSDK × List VendorCall :=
  let h1 := h ++ [VendorCall.CorsairGetDeviceCount]
  let deviceCount := sdk.deviceCount h1
  let st := enumerateDevices sdk deviceCount.toNat 0 (DeviceLists.empty, h1)
  let ls := st.1
  let d := self.devices
  let d := devicesInsert d DeviceType.Mouse ls.MouseList
  let d := devicesInsert d DeviceType.Headset ls.HeadsetList
  let d := devicesInsert d DeviceType.Keyboard ls.KeyboardList
  let d := devicesInsert d DeviceType.Mousemat ls.MouseMatList
  let d := devicesInsert d DeviceType.HeadsetStand ls.HeadsetStandList
  let d := devicesInsert d DeviceType.GPU ls.GPUList
  let d := devicesInsert d DeviceType.Mainboard ls.MotherBoardList
  let d := devicesInsert d DeviceType.Cooler ls.CoolerList
  let d := devicesInsert d DeviceType.ETC ls.ETCList
  let d := devicesInsert d DeviceType.RAM ls.MemoryModuleList
  ({ self with devices := d }, st.2)

/-- The function `CorsairSDK::connect`. -/
def connect (sdk : Vendor) (self : CorsairSDK) (h : List VendorCall) : Effect Unit :=
  if self.isConnected then
    ⟨.error SDKException.SDKAlreadyConnected, self, h⟩
  else
    let h1 := h ++ [VendorCall.CorsairPerformProtocolHandshake]
    let h2 := h1 ++ [VendorCall.CorsairGetLastError]
    match sdk.lastError h2 with
    | .CE_Success =>
      let h3 := h2 ++ [VendorCall.CorsairRequestControl]
      let self1 := { self with isConnected := sdk.boolResult h3 }
      if self1.isConnected then
        let st := setAllDeviceInfo sdk self1 h3
        ⟨.ok (), st.1, st.2⟩
      else
        ⟨.error SDKException.SDKConnectionFailed, self1, h3⟩
    | .CE_IncompatibleProtocol => ⟨.error SDKException.SDKVersionMismatch, self, h2⟩
    | .CE_ServerNotFound => ⟨.error SDKException.SDKServiceNotRunning, self, h2⟩
    | _ => ⟨.error SDKException.SDKUnexpectedError, self, h2⟩

/-- The function `CorsairSDK::disconnect`. -/
def disconnect (sdk : Vendor) (self : CorsairSDK) (h : List VendorCall) : Effect Unit :=
  if self.isConnected then
    let h1 := h ++ [VendorCall.CorsairReleaseControl]
    let h2 := h1 ++ [VendorCall.CorsairGetLastError]
    match sdk.lastError h2 with
    | .CE_Success => ⟨.ok (), { self with isConnected := false }, h2⟩
    | .CE_IncompatibleProtocol => ⟨.error SDKException.SDKVersionMismatch, self, h2⟩
    | .CE_ServerNotFound => ⟨.error SDKException.SDKServiceNotRunning, self, h2⟩
    | _ => ⟨.error SDKException.SDKUnexpectedError, self, h2⟩
  else
    ⟨.error SDKException.SDKNotConnected, self, h⟩

/-- The function `CorsairSDK::getDevices`. -/
def getDevices (self : CorsairSDK) (h : List VendorCall) :
    Effect (List (DeviceType × List Device)) :=
  if self.isConnected then ⟨.ok self.devices, self, h⟩
  else ⟨.error SDKException.SDKNotConnected, self, h⟩

/-! ## The colour buffer -/

/-- The array `CorsairLedColor ledValues[size]` after the loop that sets the
colour of every entry.  The `ledId` of an entry that was never assigned is
indeterminate in the program; it is 0 here, and the vendor library is only ever
handed entries whose `ledId` was assigned. -/
def newLedValues (size : Nat) (r g b : Int) : List CorsairLedColor :=
  List.replicate size { ledId := 0, r := r, g := g, b := b }

/-- The assignment `ledValues[i].ledId = id`.  An index outside the array is
undefined behaviour in the program and leaves the array as it is here. -/
def setLedId : List CorsairLedColor → Nat → Nat → List CorsairLedColor
  | [], _, _ => []
  | v :: vs, 0, id => { v with ledId := id } :: vs
  | v :: vs, i + 1, id => v :: setLedId vs i id

/-- The statement `ledValues[ledCount++].ledId = id` on the pair of the array
and `ledCount`. -/
def storeLedId (id : Nat) (st : List CorsairLedColor × Nat) : List CorsairLedColor × Nat :=
  (setLedId st.1 st.2 id, st.2 + 1)

/-- The loop body `ledValues[ledCount++].ledId = static_cast<CorsairLedId>(ledId i)`
run `todo` times from loop variable `i`. -/
def storeLedIdsFrom (ledId : Nat → Nat) : Nat → Nat → List CorsairLedColor × Nat →
    List CorsairLedColor × Nat
  | 0, _, st => st
  | todo + 1, i, st => storeLedIdsFrom ledId todo (i + 1) (storeLedId (ledId i) st)

/-- The loop `for (int i = lo; i < hi; i++) ledValues[ledCount++].ledId = ledId i`,
which runs `hi - lo` times when `lo < hi` and not at all otherwise. -/
def storeLedIds (lo hi : Nat) (ledId : Nat → Nat) (st : List CorsairLedColor × Nat) :
    List CorsairLedColor × Nat :=
  storeLedIdsFrom ledId (hi - lo) lo st

/-! ## Writing a colour to the devices of one list -/

/-- The loop `for (auto const& x : deviceList)` of a handler: one buffered write
per device, its `bool` result added to `resultSum`. -/
def writeDevices (sdk : Vendor) (ledCount : Nat) (ledValues : List CorsairLedColor) :
    List Device → Nat × List VendorCall → Nat × List VendorCall
  | [], st => st
  | x :: rest, (resultSum, h) =>
    let deviceIndex := x.deviceIndex
    let h1 := h ++ [VendorCall.CorsairSetLedsColorsBufferByDeviceIndex deviceIndex ledCount
      (ledValues.take ledCount)]
    writeDevices sdk ledCount ledValues rest (resultSum + (sdk.boolResult h1).toNat, h1)

/-- The tail shared by the ten handlers, from `int resultSum = 0` on: the writes,
the flush, and the comparison of `resultSum` with `deviceList.size() + 1`.
`resultSum` counts `true` results, so it is never negative and the comparison
with the unsigned size is the comparison of the two numbers. -/
def writeAndFlush (sdk : Vendor) (self : CorsairSDK) (deviceList : List Device)
    (ledCount : Nat) (ledValues : List CorsairLedColor) (h : List VendorCall) : Effect Nat :=
  let st := writeDevices sdk ledCount ledValues deviceList (0, h)
  let h1 := st.2 ++ [VendorCall.CorsairSetLedsColorsFlushBuffer]
  let resultSum := st.1 + (sdk.boolResult h1).toNat
  if resultSum = deviceList.length + 1 then ⟨.ok 1, self, h1⟩
  else if resultSum < deviceList.length + 1 ∧ resultSum > 0 then
    ⟨.error SDKException.SomeRGBFailed, self, h1⟩
  else ⟨.error SDKException.AllRGBFailed, self, h1⟩

/-- A handler from the lookup `*this->devices.at(key)` on: a missing key
throws before any vendor call. -/
def withDevices (sdk : Vendor) (self : CorsairSDK) (key : DeviceType)
    (buffer : List CorsairLedColor × Nat) (h : List VendorCall) : Effect Nat :=
  match devicesAt self.devices key with
  | none => ⟨.error SDKException.OutOfRange, self, h⟩
  | some deviceList => writeAndFlush sdk self deviceList buffer.2 buffer.1 h

/-! ## The ten handlers

Each handler is its buffer (the array and `ledCount` after the loops that store
the LED ids) and the lookup, writes and flush on it. -/

/-- The buffer of `setMouseRgb`. -/
def mouseLedValues (r g b : Int) : List CorsairLedColor × Nat :=
  let st := (newLedValues 20 r g b, 0)
  let st := storeLedIds 0 4 (fun i => 148 + i) st
  let st := storeLedIds 0 2 (fun i => 189 + i) st
  storeLedIds 0 14 (fun i => 1694 + i) st

/-- The function `CorsairSDK::setMouseRgb`. -/
def setMouseRgb (sdk : Vendor) (self : CorsairSDK) (h : List VendorCall) (r g b : Int) :
    Effect Nat :=
  withDevices sdk self DeviceType.Mouse (mouseLedValues r g b) h

/-- The buffer of `setKeyboardRgb`.  The third loop runs from 170 while
`i < 18`. -/
def keyboardLedValues (r g b : Int) : List CorsairLedColor × Nat :=
  let st := (newLedValues 199 r g b, 0)
  let st := storeLedIds 1 148 (fun i => i) st
  let st := storeLedId 154 st
  storeLedIds 170 18 (fun i => i) st

/-- The function `CorsairSDK::setKeyboardRgb`. -/
def setKeyboardRgb (sdk : Vendor) (self : CorsairSDK) (h : List VendorCall) (r g b : Int) :
    Effect Nat :=
  withDevices sdk self DeviceType.Keyboard (keyboardLedValues r g b) h

/-- The buffer of `setHeadsetRgb`: two entries assigned by index, and the
literal 2 passed as the size. -/
def headsetLedValues (ids : LedIdNames) (r g b : Int) : List CorsairLedColor × Nat :=
  let ledValues := newLedValues 2 r g b
  let ledValues := setLedId ledValues 0 ids.CLH_LeftLogo
  let ledValues := setLedId ledValues 1 ids.CLH_RightLogo
  (ledValues, 2)

/-- The function `CorsairSDK::setHeadsetRgb`. -/
def setHeadsetRgb (ids : LedIdNames) (sdk : Vendor) (self : CorsairSDK) (h : List VendorCall)
    (r g b : Int) : Effect Nat :=
  withDevices sdk self DeviceType.Headset (headsetLedValues ids r g b) h

/-- The buffer of `setMouseMatRgb`. -/
def mouseMatLedValues (r g b : Int) : List CorsairLedColor × Nat :=
  storeLedIds 0 15 (fun i => 155 + i) (newLedValues 15 r g b, 0)

/-- The function `CorsairSDK::setMouseMatRgb`. -/
def setMouseMatRgb (sdk : Vendor) (self : CorsairSDK) (h : List VendorCall) (r g b : Int) :
    Effect Nat :=
  withDevices sdk self DeviceType.Mousemat (mouseMatLedValues r g b) h

/-- The buffer of `setHeadsetStandRgb`. -/
def headsetStandLedValues (r g b : Int) : List CorsairLedColor × Nat :=
  storeLedIds 0 9 (fun i => 191 + i) (newLedValues 9 r g b, 0)

/-- The function `CorsairSDK::setHeadsetStandRgb`. -/
def setHeadsetStandRgb (sdk : Vendor) (self : CorsairSDK) (h : List VendorCall) (r g b : Int) :
    Effect Nat :=
  withDevices sdk self DeviceType.HeadsetStand (headsetStandLedValues r g b) h

/-- The buffer of `setCoolerRgb`. -/
def coolerLedValues (r g b : Int) : List CorsairLedColor × Nat :=
  let st := (newLedValues 1050 r g b, 0)
  let st := storeLedIds 0 300 (fun i => 200 + i) st
  storeLedIds 0 750 (fun i => 612 + i) st

/-- The function `CorsairSDK::setCoolerRgb`. -/
def setCoolerRgb (sdk : Vendor) (self : CorsairSDK) (h : List VendorCall) (r g b : Int) :
    Effect Nat :=
  withDevices sdk self DeviceType.Cooler (coolerLedValues r g b) h

/-- The buffer of `setMemoryModuleRgb`. -/
def memoryModuleLedValues (r g b : Int) : List CorsairLedColor × Nat :=
  storeLedIds 0 12 (fun i => 600 + i) (newLedValues 12 r g b, 0)

/-- The function `CorsairSDK::setMemoryModuleRgb`. -/
def setMemoryModuleRgb (sdk : Vendor) (self : CorsairSDK) (h : List VendorCall) (r g b : Int) :
    Effect Nat :=
  withDevices sdk self DeviceType.RAM (memoryModuleLedValues r g b) h

/-- The buffer of `setMotherboardRgb`. -/
def motherboardLedValues (r g b : Int) : List CorsairLedColor × Nat :=
  storeLedIds 0 100 (fun i => 1362 + i) (newLedValues 100 r g b, 0)

/-- The function `CorsairSDK::setMotherboardRgb`. -/
def setMotherboardRgb (sdk : Vendor) (self : CorsairSDK) (h : List VendorCall) (r g b : Int) :
    Effect Nat :=
  withDevices sdk self DeviceType.Mainboard (motherboardLedValues r g b) h

/-- The buffer of `setGPURgb`. -/
def gpuLedValues (r g b : Int) : List CorsairLedColor × Nat :=
  storeLedIds 0 50 (fun i => 1462 + i) (newLedValues 50 r g b, 0)

/-- The function `CorsairSDK::setGPURgb`. -/
def setGPURgb (sdk : Vendor) (self : CorsairSDK) (h : List VendorCall) (r g b : Int) :
    Effect Nat :=
  withDevices sdk self DeviceType.GPU (gpuLedValues r g b) h

/-- The buffer of `setETCRgb`. -/
def etcLedValues (r g b : Int) : List CorsairLedColor × Nat :=
  let st := (newLedValues 250 r g b, 0)
  let st := storeLedIds 0 100 (fun i => 500 + i) st
  storeLedIds 0 150 (fun i => 1544 + i) st

/-- The function `CorsairSDK::setETCRgb`. -/
def setETCRgb (sdk : Vendor) (self : CorsairSDK) (h : List VendorCall) (r g b : Int) :
    Effect Nat :=
  withDevices sdk self DeviceType.ETC (etcLedValues r g b) h

/-! ## The fan-out and the entry point -/

/-- The statement `resultSum += this->setXRgb(r, g, b);` of `setAllRgb`, followed
by the rest of the function: an exception thrown by the handler leaves
`setAllRgb` at once, with the calls made so far. -/
def addResult (x : Effect Nat) (resultSum : Nat)
    (rest : Nat → CorsairSDK → List VendorCall → Effect Nat) : Effect Nat :=
  match x.result with
  | .error e => ⟨.error e, x.self, x.calls⟩
  | .ok v => rest (resultSum + v) x.self x.calls

/-- The function `CorsairSDK::setAllRgb`. -/
def setAllRgb (ids : LedIdNames) (sdk : Vendor) (self : CorsairSDK) (h : List VendorCall)
    (r g b : Int) : Effect Nat :=
  addResult (setMouseRgb sdk self h r g b) 0 fun resultSum self h =>
  addResult (setKeyboardRgb sdk self h r g b) resultSum fun resultSum self h =>
  addResult (setHeadsetRgb ids sdk self h r g b) resultSum fun resultSum self h =>
  addResult (setHeadsetStandRgb sdk self h r g b) resultSum fun resultSum self h =>
  addResult (setMemoryModuleRgb sdk self h r g b) resultSum fun resultSum self h =>
  addResult (setGPURgb sdk self h r g b) resultSum fun resultSum self h =>
  addResult (setETCRgb sdk self h r g b) resultSum fun resultSum self h =>
  addResult (setMouseMatRgb sdk self h r g b) resultSum fun resultSum self h =>
  addResult (setMotherboardRgb sdk self h r g b) resultSum fun resultSum self h =>
  if resultSum = 9 then ⟨.ok 1, self, h⟩
  else if resultSum < 9 ∧ resultSum > 0 then ⟨.error SDKException.SomeRGBFailed, self, h⟩
  else ⟨.error SDKException.AllRGBFailed, self, h⟩

/-- A call `this->setXRgb(r, g, b); break;` of `setRGB`: the value returned is
dropped, an exception goes on to the caller. -/
def discard (x : Effect Nat) : Effect Unit :=
  ⟨x.result.map fun _ => (), x.self, x.calls⟩

/-- The function `CorsairSDK::setRGB`.  Every member of `DeviceType` has a `case`,
so the `default` branch that throws `InvalidDeviceType` has no value left to
take. -/
def setRGB (ids : LedIdNames) (sdk : Vendor) (self : CorsairSDK) (h : List VendorCall)
    (argDeviceType : DeviceType) (r g b : Int) : Effect Unit :=
  if self.isConnected then
    if ((r ≥ 0 ∧ r ≤ 255) ∧ (g ≥ 0 ∧ g ≤ 255)) ∧ (b ≥ 0 ∧ b ≤ 255) then
      match argDeviceType with
      | .Mouse => discard (setMouseRgb sdk self h r g b)
      | .Headset => discard (setHeadsetRgb ids sdk self h r g b)
      | .Keyboard => discard (setKeyboardRgb sdk self h r g b)
      | .Mousemat => discard (setMouseMatRgb sdk self h r g b)
      | .HeadsetStand => discard (setHeadsetStandRgb sdk self h r g b)
      | .GPU => discard (setGPURgb sdk self h r g b)
      | .ALL => discard (setAllRgb ids sdk self h r g b)
      | .Mainboard => discard (setMotherboardRgb sdk self h r g b)
      | .Cooler => discard (setCoolerRgb sdk self h r g b)
      | .RAM => discard (setMemoryModuleRgb sdk self h r g b)
      | .ETC => discard (setETCRgb sdk self h r g b)
      | .UnknownDevice => discard (setETCRgb sdk self h r g b)
      | .Microphone => discard (setETCRgb sdk self h r g b)
    else ⟨.error SDKException.InvalidRGBValue, self, h⟩
  else ⟨.error SDKException.SDKNotConnected, self, h⟩

/-! ## Vocabulary of the specification -/

/-- The buffer entry that gives LED `id` the colour `(r, g, b)`. -/
def coloured (r g b : Int) (id : Nat) : CorsairLedColor :=
  { ledId := id, r := r, g := g, b := b }

/-- The LED id sequence of a category, as the handler of the category stores it:
the table `layoutFor` of the specification.  The pseudo-category `ALL` has no
layout of its own. -/
def layoutFor (ids : LedIdNames) : DeviceType → List Nat
  | .Mouse => List.range' 148 4 ++ List.range' 189 2 ++ List.range' 1694 14
  | .Keyboard => List.range' 1 147 ++ [154]
  | .Headset => [ids.CLH_LeftLogo, ids.CLH_RightLogo]
  | .Mousemat => List.range' 155 15
  | .HeadsetStand => List.range' 191 9
  | .Cooler => List.range' 200 300 ++ List.range' 612 750
  | .RAM => List.range' 600 12
  | .Mainboard => List.range' 1362 100
  | .GPU => List.range' 1462 50
  | .ETC => List.range' 500 100 ++ List.range' 1544 150
  | .UnknownDevice => List.range' 500 100 ++ List.range' 1544 150
  | .Microphone => List.range' 500 100 ++ List.range' 1544 150
  | .ALL => []

/-- The ten categories that have a handler and a registry list of their own. -/
def handlerCategories : List DeviceType :=
  [.Mouse, .Headset, .Keyboard, .Mousemat, .HeadsetStand, .GPU, .Mainboard, .Cooler, .RAM, .ETC]

/-- The buffer that the handler of a category builds. -/
def bufferOf (ids : LedIdNames) (r g b : Int) : DeviceType → List CorsairLedColor × Nat
  | .Mouse => mouseLedValues r g b
  | .Keyboard => keyboardLedValues r g b
  | .Headset => headsetLedValues ids r g b
  | .Mousemat => mouseMatLedValues r g b
  | .HeadsetStand => headsetStandLedValues r g b
  | .Cooler => coolerLedValues r g b
  | .RAM => memoryModuleLedValues r g b
  | .Mainboard => motherboardLedValues r g b
  | .GPU => gpuLedValues r g b
  | .ETC => etcLedValues r g b
  | .UnknownDevice => etcLedValues r g b
  | .Microphone => etcLedValues r g b
  | .ALL => ([], 0)

/-- The buffered write that a dispatch to a category sends to one device. -/
def writeTo (ids : LedIdNames) (category : DeviceType) (r g b : Int) (d : Device) : VendorCall :=
  VendorCall.CorsairSetLedsColorsBufferByDeviceIndex d.deviceIndex
    (layoutFor ids category).length ((layoutFor ids category).map (coloured r g b))

/-- The sweep of one category: a buffered write per device of the list, in the
order of the list, then one flush. -/
def sweepCalls (ids : LedIdNames) (category : DeviceType) (r g b : Int)
    (deviceList : List Device) : List VendorCall :=
  deviceList.map (writeTo ids category r g b) ++ [VendorCall.CorsairSetLedsColorsFlushBuffer]

/-- The answers of the vendor library to the calls `issued`, made one after the
other after the calls `before`. -/
def answers (sdk : Vendor) : List VendorCall → List VendorCall → List Bool
  | _, [] => []
  | before, c :: issued => sdk.boolResult (before ++ [c]) :: answers sdk (before ++ [c]) issued

/-- The calls made between two moments of one run. -/
def issuedSince (before after : List VendorCall) : List VendorCall :=
  after.drop before.length

/-- The number S of the specification: how many of the calls made since `before`
the vendor library answered with success. -/
def successCount (sdk : Vendor) (before after : List VendorCall) : Nat :=
  (answers sdk before (issuedSince before after)).count true

/-- The colour is one that `setRGB` accepts. -/
def InRange (r g b : Int) : Prop :=
  (0 ≤ r ∧ r ≤ 255) ∧ (0 ≤ g ∧ g ≤ 255) ∧ (0 ≤ b ∧ b ≤ 255)

instance (r g b : Int) : Decidable (InRange r g b) := by
  unfold InRange; infer_instance

/-- The buffer holds `len` entries of colour `(r, g, b)`, and the first `ledCount`
of them carry the ids `l`. -/
def Filled (r g b : Int) (len : Nat) (l : List Nat) (st : List CorsairLedColor × Nat) : Prop :=
  st.1.length = len ∧ st.2 = l.length ∧ (∀ v ∈ st.1, v.r = r ∧ v.g = g ∧ v.b = b) ∧
    st.1.take st.2 = l.map (coloured r g b)

/-- The outcome reduction of the specification: the result of a sweep with `S`
successful units out of `N + 1`. -/
def outcomeOf (S N : Nat) : Except SDKException Nat :=
  if S = N + 1 then .ok 1
  else if S < N + 1 ∧ S > 0 then .error SDKException.SomeRGBFailed
  else .error SDKException.AllRGBFailed

/-- The handler that the `switch` of `setRGB` calls for a category. -/
def handlerOf (ids : LedIdNames) (category : DeviceType) (sdk : Vendor) (self : CorsairSDK)
    (h : List VendorCall) (r g b : Int) : Effect Nat :=
  match category with
  | .Mouse => setMouseRgb sdk self h r g b
  | .Headset => setHeadsetRgb ids sdk self h r g b
  | .Keyboard => setKeyboardRgb sdk self h r g b
  | .Mousemat => setMouseMatRgb sdk self h r g b
  | .HeadsetStand => setHeadsetStandRgb sdk self h r g b
  | .GPU => setGPURgb sdk self h r g b
  | .ALL => setAllRgb ids sdk self h r g b
  | .Mainboard => setMotherboardRgb sdk self h r g b
  | .Cooler => setCoolerRgb sdk self h r g b
  | .RAM => setMemoryModuleRgb sdk self h r g b
  | .ETC => setETCRgb sdk self h r g b
  | .UnknownDevice => setETCRgb sdk self h r g b
  | .Microphone => setETCRgb sdk self h r g b

/-- The registry key that the handler of a category looks up. -/
def keyOf : DeviceType → DeviceType
  | .UnknownDevice => .ETC
  | .Microphone => .ETC
  | c => c

/-- The nine categories of the fan-out of `ALL`, in the order of the
specification. -/
def fanOut : List DeviceType :=
  [.Mouse, .Keyboard, .Headset, .HeadsetStand, .RAM, .GPU, .ETC, .Mousemat, .Mainboard]

/-- The function `setAllRgb` from the call of the handler of the first category of
`cs` on, with the handlers of `cs` left to call. -/
def fanOutFrom (ids : LedIdNames) (sdk : Vendor) (r g b : Int) :
    List DeviceType → Nat → CorsairSDK → List VendorCall → Effect Nat
  | [], resultSum, self, h =>
    if resultSum = 9 then ⟨.ok 1, self, h⟩
    else if resultSum < 9 ∧ resultSum > 0 then ⟨.error SDKException.SomeRGBFailed, self, h⟩
    else ⟨.error SDKException.AllRGBFailed, self, h⟩
  | c :: cs, resultSum, self, h =>
    addResult (handlerOf ids c sdk self h r g b) resultSum fun resultSum self h =>
      fanOutFrom ids sdk r g b cs resultSum self h

/-- The results of the dispatches to the categories `cs`, each one made on its
own by `setRGB`, one after the other from the calls `h` on. -/
def subDispatches (ids : LedIdNames) (sdk : Vendor) (self : CorsairSDK) (r g b : Int) :
    List DeviceType → List VendorCall → List (Except SDKException Unit)
  | [], _ => []
  | c :: cs, h =>
    (setRGB ids sdk self h c r g b).result ::
      subDispatches ids sdk self r g b cs (setRGB ids sdk self h c r g b).calls

/-! ## Concrete sessions and vendor libraries -/

/-- The two headset ids with the values 152 and 153. -/
def sampleNames : LedIdNames :=
  { CLH_LeftLogo := 152, CLH_RightLogo := 153 }

/-- A vendor library with `count` devices, all of type `type`, that answers the
`bool` call number `k` (counted from 1 over all calls made) with `ok k`. -/
def sampleVendor (count : Int) (type : CorsairDeviceType) (ok : Nat → Bool) : Vendor :=
  { boolResult := fun h => ok h.length
    lastError := fun _ => CorsairError.CE_Success
    deviceCount := fun _ => count
    deviceInfo := fun _ => { type := type, model := "device" } }

/-- A device as `setAllDeviceInfo` records it. -/
def sampleDevice (type : DeviceType) (i : Int) : Device :=
  { sdkName := "Corsair", name := "device", deviceType := type, deviceIndex := i }

/-- A connected session whose registry holds the ten lists in the order in which
`setAllDeviceInfo` inserts them, all empty but those of the mice, the keyboards
and the coolers. -/
def sampleSession (mice keyboards coolers : List Device) : CorsairSDK :=
  { sdkName := "Corsair"
    isConnected := true
    devices := [(.Mouse, mice), (.Headset, []), (.Keyboard, keyboards), (.Mousemat, []),
      (.HeadsetStand, []), (.GPU, []), (.Mainboard, []), (.Cooler, coolers), (.ETC, []),
      (.RAM, [])] }

/-! ## Vocabulary of the specification: layouts, connection, registry -/

/-- The LED ids that `setKeyboardRgb` hands to the vendor library: the ids of the
`ledCount` first entries of its buffer. -/
def keyboardIds (r g b : Int) : List Nat :=
  ((keyboardLedValues r g b).1.take (keyboardLedValues r g b).2).map fun v => v.ledId

/-- A vendor library whose `CorsairGetLastError` reports `e` after every call
and whose `bool` calls all return `granted`. -/
def errorVendor (e : CorsairError) (granted : Bool) : Vendor :=
  { boolResult := fun _ => granted
    lastError := fun _ => e
    deviceCount := fun _ => 1
    deviceInfo := fun _ => { type := .CDT_Mouse, model := "device" } }

/-- The exception that `connect` and `disconnect` throw for an error code of the
vendor library other than success. -/
def exceptionOf : CorsairError → SDKException
  | .CE_IncompatibleProtocol => SDKException.SDKVersionMismatch
  | .CE_ServerNotFound => SDKException.SDKServiceNotRunning
  | _ => SDKException.SDKUnexpectedError

/-- The calls `CorsairGetDeviceInfo(0)`, ..., `CorsairGetDeviceInfo(n - 1)` of an
enumeration. -/
def infoCalls (n : Nat) : List VendorCall :=
  (List.range n).map fun k => VendorCall.CorsairGetDeviceInfo (k : Int)

/-- What the vendor library reports for the device of index `i` in an
enumeration that starts after the calls `h0`. -/
def reportedInfo (sdk : Vendor) (h0 : List VendorCall) (i : Nat) : CorsairDeviceInfo :=
  sdk.deviceInfo (h0 ++ infoCalls (i + 1))

/-- The record that `setAllDeviceInfo` makes of the device of index `i`. -/
def recordOf (info : CorsairDeviceInfo) (i : Nat) : Device :=
  { sdkName := "Corsair", name := info.model, deviceType := translateDeviceType info.type,
    deviceIndex := (i : Int) }

/-- The key of the list on which the `switch` of `setAllDeviceInfo` pushes a device
of a vendor type, if it pushes it on one. -/
def placement : CorsairDeviceType → Option DeviceType
  | .CDT_Unknown => some .ETC
  | .CDT_Mouse => some .Mouse
  | .CDT_Keyboard => some .Keyboard
  | .CDT_Headset => some .Headset
  | .CDT_MouseMat => some .Mousemat
  | .CDT_HeadsetStand => some .HeadsetStand
  | .CDT_CommanderPro => some .ETC
  | .CDT_LightingNodePro => some .ETC
  | .CDT_MemoryModule => some .RAM
  | .CDT_Cooler => some .Cooler
  | .CDT_Motherboard => some .Mainboard
  | .CDT_GraphicsCard => some .GPU
  | .unnamed _ => none

/-- The classification of the specification: a vendor type goes to the category
of its name, and the unknown type, commander pro, lighting node pro and every
type without a category of its name go to Unclassified (`ETC`). -/
def categoryOf : CorsairDeviceType → DeviceType
  | .CDT_Mouse => .Mouse
  | .CDT_Keyboard => .Keyboard
  | .CDT_Headset => .Headset
  | .CDT_MouseMat => .Mousemat
  | .CDT_HeadsetStand => .HeadsetStand
  | .CDT_MemoryModule => .RAM
  | .CDT_Cooler => .Cooler
  | .CDT_Motherboard => .Mainboard
  | .CDT_GraphicsCard => .GPU
  | _ => .ETC

/-- The local list of `setAllDeviceInfo` that is inserted into the device map
under a key. -/
def DeviceLists.listOf (ls : DeviceLists) : DeviceType → List Device
  | .Mouse => ls.MouseList
  | .Headset => ls.HeadsetList
  | .Keyboard => ls.KeyboardList
  | .Mousemat => ls.MouseMatList
  | .HeadsetStand => ls.HeadsetStandList
  | .GPU => ls.GPUList
  | .Mainboard => ls.MotherBoardList
  | .Cooler => ls.CoolerList
  | .ETC => ls.ETCList
  | .RAM => ls.MemoryModuleList
  | _ => []

/-- The calls of a `connect` that is granted control, up to the request of the
device count. -/
def enumStart (h : List VendorCall) : List VendorCall :=
  h ++ [.CorsairPerformProtocolHandshake, .CorsairGetLastError, .CorsairRequestControl,
    .CorsairGetDeviceCount]

/-- The records of the devices of an enumeration of `n` devices after the calls
`h0` that the `switch` of `setAllDeviceInfo` pushes on the list of key `c`, in
the order of their indices. -/
def enumerated (sdk : Vendor) (h0 : List VendorCall) (n : Nat) (c : DeviceType) : List Device :=
  ((List.range n).filter fun k => placement (reportedInfo sdk h0 k).type = some c).map
    fun k => recordOf (reportedInfo sdk h0 k) k

/-- A vendor library that grants every request and reports one device: a mouse
during the first five calls made, a keyboard after them. -/
def replugVendor : Vendor :=
  { boolResult := fun _ => true
    lastError := fun _ => CorsairError.CE_Success
    deviceCount := fun _ => 1
    deviceInfo := fun h =>
      if h.length ≤ 5 then { type := .CDT_Mouse, model := "device" }
      else { type := .CDT_Keyboard, model := "device" } }

/-! ## Vocabulary of the specification: reachable sessions, buffers -/

/-- The states of the session that `connect`, `disconnect`, `setRGB` and
`getDevices` reach from the session as constructed, with any vendor library and
any arguments at each call. -/
inductive Reachable : CorsairSDK → Prop
  | fresh : Reachable CorsairSDK.new
  | connect (sdk : Vendor) (h : List VendorCall) (s : CorsairSDK) :
      Reachable s → Reachable (connect sdk s h).self
  | disconnect (sdk : Vendor) (h : List VendorCall) (s : CorsairSDK) :
      Reachable s → Reachable (disconnect sdk s h).self
  | setRGB (ids : LedIdNames) (sdk : Vendor) (h : List VendorCall) (c : DeviceType)
      (r g b : Int) (s : CorsairSDK) :
      Reachable s → Reachable (setRGB ids sdk s h c r g b).self
  | getDevices (h : List VendorCall) (s : CorsairSDK) :
      Reachable s → Reachable (getDevices s h).self

/-- The device map is the one of the session as constructed, which is not
connected, or it holds under each of the ten keys the list of one enumeration
and nothing under another key. -/
def Registered (s : CorsairSDK) : Prop :=
  (s.isConnected = false ∧ s.devices = []) ∨
    ∃ (sdk : Vendor) (h0 : List VendorCall) (n : Nat), ∀ c,
      devicesAt s.devices c =
        if c ∈ handlerCategories then some (enumerated sdk h0 n c) else none

/-- The LED ids that the handler of a category hands to the vendor library: the
ids of the `ledCount` first entries of its buffer. -/
def idsOf (ids : LedIdNames) (r g b : Int) (c : DeviceType) : List Nat :=
  ((bufferOf ids r g b c).1.take (bufferOf ids r g b c).2).map fun v => v.ledId

/-- The size with which the handler of a category declares its array
`ledValues`. -/
def declaredSize : DeviceType → Nat
  | .Mouse => 20
  | .Keyboard => 199
  | .Headset => 2
  | .Mousemat => 15
  | .HeadsetStand => 9
  | .Cooler => 1050
  | .RAM => 12
  | .Mainboard => 100
  | .GPU => 50
  | .ETC => 250
  | .UnknownDevice => 250
  | .Microphone => 250
  | .ALL => 0

/-- A vendor library that grants every request and reports two devices: a mouse
at index 0 and a cooler at index 1. -/
def deskVendor : Vendor :=
  { boolResult := fun _ => true
    lastError := fun _ => CorsairError.CE_Success
    deviceCount := fun _ => 2
    deviceInfo := fun h =>
      if h.length ≤ 5 then { type := .CDT_Mouse, model := "device" }
      else { type := .CDT_Cooler, model := "device" } }

/-! ## The colour buffer: lemmas -/

theorem setLedId_length (buf : List CorsairLedColor) (i id : Nat) :
    (setLedId buf i id).length = buf.length := by
  induction buf generalizing i with
  | nil => simp [setLedId]
  | cons v vs ih =>
    cases i with
    | zero => simp [setLedId]
    | succ j => simp [setLedId, ih]

theorem setLedId_colour (r g b : Int) (buf : List CorsairLedColor) (i id : Nat)
    (hc : ∀ v ∈ buf, v.r = r ∧ v.g = g ∧ v.b = b) :
    ∀ v ∈ setLedId buf i id, v.r = r ∧ v.g = g ∧ v.b = b := by
  induction buf generalizing i with
  | nil => simp [setLedId]
  | cons v vs ih =>
    have hv := hc v (List.mem_cons_self v vs)
    have hvs : ∀ w ∈ vs, w.r = r ∧ w.g = g ∧ w.b = b :=
      fun w hw => hc w (List.mem_cons_of_mem v hw)
    cases i with
    | zero =>
      intro w hw
      simp only [setLedId, List.mem_cons] at hw
      rcases hw with rfl | hw
      · exact hv
      · exact hvs w hw
    | succ j =>
      intro w hw
      simp only [setLedId, List.mem_cons] at hw
      rcases hw with rfl | hw
      · exact hv
      · exact ih j hvs w hw

theorem setLedId_take (r g b : Int) (buf : List CorsairLedColor) (i id : Nat)
    (hi : i < buf.length) (hc : ∀ v ∈ buf, v.r = r ∧ v.g = g ∧ v.b = b) :
    (setLedId buf i id).take (i + 1) = buf.take i ++ [coloured r g b id] := by
  induction buf generalizing i with
  | nil => simp at hi
  | cons v vs ih =>
    have hv := hc v (List.mem_cons_self v vs)
    have hvs : ∀ w ∈ vs, w.r = r ∧ w.g = g ∧ w.b = b :=
      fun w hw => hc w (List.mem_cons_of_mem v hw)
    cases i with
    | zero =>
      obtain ⟨h1, h2, h3⟩ := hv
      simp [setLedId, coloured, h1, h2, h3]
    | succ j =>
      have hj : j < vs.length := by simpa using hi
      simp [setLedId, ih j hj hvs]

theorem filled_new (r g b : Int) (n : Nat) : Filled r g b n [] (newLedValues n r g b, 0) := by
  refine ⟨by simp [newLedValues], rfl, ?_, by simp⟩
  intro v hv
  simp only [newLedValues, List.mem_replicate] at hv
  rw [hv.2]
  exact ⟨rfl, rfl, rfl⟩

theorem filled_store (r g b : Int) (len : Nat) (l : List Nat) (st : List CorsairLedColor × Nat)
    (id : Nat) (hf : Filled r g b len l st) (hl : l.length < len) :
    Filled r g b len (l ++ [id]) (storeLedId id st) := by
  obtain ⟨h1, h2, h3, h4⟩ := hf
  refine ⟨?_, ?_, ?_, ?_⟩
  · simp [storeLedId, setLedId_length, h1]
  · simp [storeLedId, h2]
  · exact setLedId_colour r g b st.1 st.2 id h3
  · have hi : st.2 < st.1.length := by omega
    simp only [storeLedId]
    rw [setLedId_take r g b st.1 st.2 id hi h3, h4]
    simp

theorem filled_storeFrom (r g b : Int) (len : Nat) (f : Nat → Nat) (todo : Nat) :
    ∀ (i : Nat) (l : List Nat) (st : List CorsairLedColor × Nat), Filled r g b len l st →
      l.length + todo ≤ len →
      Filled r g b len (l ++ (List.range' i todo).map f) (storeLedIdsFrom f todo i st) := by
  induction todo with
  | zero =>
    intro i l st hf _
    simpa [storeLedIdsFrom] using hf
  | succ n ih =>
    intro i l st hf hl
    have h1 := filled_store r g b len l st (f i) hf (by omega)
    have h2 := ih (i + 1) (l ++ [f i]) (storeLedId (f i) st) h1 (by simp; omega)
    simpa [storeLedIdsFrom, List.range'_succ] using h2

theorem filled_storeLedIds (r g b : Int) (len : Nat) (lo hi : Nat) (f : Nat → Nat) (l : List Nat)
    (st : List CorsairLedColor × Nat) (hf : Filled r g b len l st)
    (hl : l.length + (hi - lo) ≤ len) :
    Filled r g b len (l ++ (List.range' lo (hi - lo)).map f) (storeLedIds lo hi f st) :=
  filled_storeFrom r g b len f (hi - lo) lo l st hf hl

theorem filled_storeLedIds_add (r g b : Int) (len : Nat) (a lo hi : Nat) (l : List Nat)
    (st : List CorsairLedColor × Nat) (hf : Filled r g b len l st)
    (hl : l.length + (hi - lo) ≤ len) :
    Filled r g b len (l ++ List.range' (a + lo) (hi - lo))
      (storeLedIds lo hi (fun i => a + i) st) := by
  have h := filled_storeLedIds r g b len lo hi (fun i => a + i) l st hf hl
  rwa [List.map_add_range'] at h

theorem filled_storeLedIds_id (r g b : Int) (len : Nat) (lo hi : Nat) (l : List Nat)
    (st : List CorsairLedColor × Nat) (hf : Filled r g b len l st)
    (hl : l.length + (hi - lo) ≤ len) :
    Filled r g b len (l ++ List.range' lo (hi - lo)) (storeLedIds lo hi (fun i => i) st) := by
  have h := filled_storeLedIds r g b len lo hi (fun i => i) l st hf hl
  rwa [List.map_id_fun', id_eq] at h

/-! The ids that the loops of a handler store are the layout of its category. -/

theorem mouse_filled (ids : LedIdNames) (r g b : Int) :
    Filled r g b 20 (layoutFor ids .Mouse) (mouseLedValues r g b) := by
  have h0 := filled_new r g b 20
  have h1 := filled_storeLedIds_add r g b 20 148 0 4 _ _ h0 (by simp)
  have h2 := filled_storeLedIds_add r g b 20 189 0 2 _ _ h1 (by simp)
  have h3 := filled_storeLedIds_add r g b 20 1694 0 14 _ _ h2 (by simp)
  rw [List.nil_append] at h3
  exact h3

theorem keyboard_filled (ids : LedIdNames) (r g b : Int) :
    Filled r g b 199 (layoutFor ids .Keyboard) (keyboardLedValues r g b) := by
  have h0 := filled_new r g b 199
  have h1 := filled_storeLedIds_id r g b 199 1 148 _ _ h0 (by simp)
  have h2 := filled_store r g b 199 _ _ 154 h1 (by simp)
  have h3 := filled_storeLedIds_id r g b 199 170 18 _ _ h2 (by simp)
  rw [List.nil_append] at h3
  have e : (18 : Nat) - 170 = 0 := rfl
  rw [e, List.range'_zero, List.append_nil] at h3
  exact h3

theorem headset_filled (ids : LedIdNames) (r g b : Int) :
    Filled r g b 2 (layoutFor ids .Headset) (headsetLedValues ids r g b) := by
  refine ⟨rfl, rfl, ?_, rfl⟩
  intro v hv
  simp only [headsetLedValues, newLedValues, List.replicate, setLedId, List.mem_cons,
    List.mem_nil_iff, or_false] at hv
  rcases hv with rfl | rfl <;> exact ⟨rfl, rfl, rfl⟩

theorem mouseMat_filled (ids : LedIdNames) (r g b : Int) :
    Filled r g b 15 (layoutFor ids .Mousemat) (mouseMatLedValues r g b) := by
  have h0 := filled_new r g b 15
  have h1 := filled_storeLedIds_add r g b 15 155 0 15 _ _ h0 (by simp)
  rw [List.nil_append] at h1
  exact h1

theorem headsetStand_filled (ids : LedIdNames) (r g b : Int) :
    Filled r g b 9 (layoutFor ids .HeadsetStand) (headsetStandLedValues r g b) := by
  have h0 := filled_new r g b 9
  have h1 := filled_storeLedIds_add r g b 9 191 0 9 _ _ h0 (by simp)
  rw [List.nil_append] at h1
  exact h1

theorem cooler_filled (ids : LedIdNames) (r g b : Int) :
    Filled r g b 1050 (layoutFor ids .Cooler) (coolerLedValues r g b) := by
  have h0 := filled_new r g b 1050
  have h1 := filled_storeLedIds_add r g b 1050 200 0 300 _ _ h0 (by simp)
  have h2 := filled_storeLedIds_add r g b 1050 612 0 750 _ _ h1 (by simp)
  rw [List.nil_append] at h2
  exact h2

theorem memoryModule_filled (ids : LedIdNames) (r g b : Int) :
    Filled r g b 12 (layoutFor ids .RAM) (memoryModuleLedValues r g b) := by
  have h0 := filled_new r g b 12
  have h1 := filled_storeLedIds_add r g b 12 600 0 12 _ _ h0 (by simp)
  rw [List.nil_append] at h1
  exact h1

theorem motherboard_filled (ids : LedIdNames) (r g b : Int) :
    Filled r g b 100 (layoutFor ids .Mainboard) (motherboardLedValues r g b) := by
  have h0 := filled_new r g b 100
  have h1 := filled_storeLedIds_add r g b 100 1362 0 100 _ _ h0 (by simp)
  rw [List.nil_append] at h1
  exact h1

theorem gpu_filled (ids : LedIdNames) (r g b : Int) :
    Filled r g b 50 (layoutFor ids .GPU) (gpuLedValues r g b) := by
  have h0 := filled_new r g b 50
  have h1 := filled_storeLedIds_add r g b 50 1462 0 50 _ _ h0 (by simp)
  rw [List.nil_append] at h1
  exact h1

theorem etc_filled (ids : LedIdNames) (r g b : Int) :
    Filled r g b 250 (layoutFor ids .ETC) (etcLedValues r g b) := by
  have h0 := filled_new r g b 250
  have h1 := filled_storeLedIds_add r g b 250 500 0 100 _ _ h0 (by simp)
  have h2 := filled_storeLedIds_add r g b 250 1544 0 150 _ _ h1 (by simp)
  rw [List.nil_append] at h2
  exact h2

theorem bufferOf_filled (ids : LedIdNames) (r g b : Int) (c : DeviceType) (hc : c ≠ .ALL) :
    ∃ len, Filled r g b len (layoutFor ids c) (bufferOf ids r g b c) := by
  cases c with
  | ALL => exact absurd rfl hc
  | Mouse => exact ⟨_, mouse_filled ids r g b⟩
  | Headset => exact ⟨_, headset_filled ids r g b⟩
  | Keyboard => exact ⟨_, keyboard_filled ids r g b⟩
  | Mousemat => exact ⟨_, mouseMat_filled ids r g b⟩
  | HeadsetStand => exact ⟨_, headsetStand_filled ids r g b⟩
  | GPU => exact ⟨_, gpu_filled ids r g b⟩
  | Mainboard => exact ⟨_, motherboard_filled ids r g b⟩
  | Cooler => exact ⟨_, cooler_filled ids r g b⟩
  | RAM => exact ⟨_, memoryModule_filled ids r g b⟩
  | ETC => exact ⟨_, etc_filled ids r g b⟩
  | UnknownDevice => exact ⟨_, etc_filled ids r g b⟩
  | Microphone => exact ⟨_, etc_filled ids r g b⟩

/-- The write a handler sends to a device is the write of the layout. -/
theorem bufferOf_write (ids : LedIdNames) (r g b : Int) (c : DeviceType) (hc : c ≠ .ALL)
    (d : Device) :
    VendorCall.CorsairSetLedsColorsBufferByDeviceIndex d.deviceIndex (bufferOf ids r g b c).2
      ((bufferOf ids r g b c).1.take (bufferOf ids r g b c).2) = writeTo ids c r g b d := by
  obtain ⟨len, _, h2, _, h4⟩ := bufferOf_filled ids r g b c hc
  rw [h4, h2]
  rfl

/-! ## One sweep: lemmas -/

theorem answers_append (sdk : Vendor) (issued more before : List VendorCall) :
    answers sdk before (issued ++ more) =
      answers sdk before issued ++ answers sdk (before ++ issued) more := by
  induction issued generalizing before with
  | nil => simp [answers]
  | cons c cs ih => simp [answers, ih]

theorem answers_length (sdk : Vendor) (issued before : List VendorCall) :
    (answers sdk before issued).length = issued.length := by
  induction issued generalizing before with
  | nil => simp [answers]
  | cons c cs ih => simp [answers, ih]

theorem issuedSince_append (before issued : List VendorCall) :
    issuedSince before (before ++ issued) = issued := by
  simp [issuedSince]

theorem count_true_cons (x : Bool) (l : List Bool) :
    (x :: l).count true = x.toNat + l.count true := by
  cases x <;> simp [Nat.add_comm]

theorem writeDevices_calls (sdk : Vendor) (n : Nat) (lv : List CorsairLedColor)
    (devs : List Device) (k : Nat) (h : List VendorCall) :
    (writeDevices sdk n lv devs (k, h)).2 =
      h ++ devs.map fun x =>
        VendorCall.CorsairSetLedsColorsBufferByDeviceIndex x.deviceIndex n (lv.take n) := by
  induction devs generalizing k h with
  | nil => simp [writeDevices]
  | cons x rest ih => simp [writeDevices, ih]

theorem writeDevices_sum (sdk : Vendor) (n : Nat) (lv : List CorsairLedColor)
    (devs : List Device) (k : Nat) (h : List VendorCall) :
    (writeDevices sdk n lv devs (k, h)).1 =
      k + (answers sdk h (devs.map fun x =>
        VendorCall.CorsairSetLedsColorsBufferByDeviceIndex x.deviceIndex n (lv.take n))).count
          true := by
  induction devs generalizing k h with
  | nil => simp [writeDevices, answers]
  | cons x rest ih =>
    simp only [writeDevices, ih, List.map_cons, answers, count_true_cons]
    omega

theorem writeAndFlush_eq (sdk : Vendor) (self : CorsairSDK) (devs : List Device) (n : Nat)
    (lv : List CorsairLedColor) (h : List VendorCall) :
    writeAndFlush sdk self devs n lv h =
      ⟨outcomeOf ((answers sdk h ((devs.map fun x =>
          VendorCall.CorsairSetLedsColorsBufferByDeviceIndex x.deviceIndex n (lv.take n)) ++
            [VendorCall.CorsairSetLedsColorsFlushBuffer])).count true) devs.length,
        self,
        h ++ ((devs.map fun x =>
          VendorCall.CorsairSetLedsColorsBufferByDeviceIndex x.deviceIndex n (lv.take n)) ++
            [VendorCall.CorsairSetLedsColorsFlushBuffer])⟩ := by
  have hS : (answers sdk h ((devs.map fun x =>
      VendorCall.CorsairSetLedsColorsBufferByDeviceIndex x.deviceIndex n (lv.take n)) ++
        [VendorCall.CorsairSetLedsColorsFlushBuffer])).count true =
      (writeDevices sdk n lv devs (0, h)).1 + (sdk.boolResult ((writeDevices sdk n lv devs
        (0, h)).2 ++ [VendorCall.CorsairSetLedsColorsFlushBuffer])).toNat := by
    rw [answers_append, List.count_append, writeDevices_sum, writeDevices_calls]
    simp [answers, count_true_cons]
  rw [hS]
  unfold writeAndFlush outcomeOf
  simp only [writeDevices_calls, List.append_assoc]
  split_ifs <;> rfl

theorem inRange_iff (r g b : Int) :
    (((r ≥ 0 ∧ r ≤ 255) ∧ (g ≥ 0 ∧ g ≤ 255)) ∧ (b ≥ 0 ∧ b ≤ 255)) ↔ InRange r g b := by
  unfold InRange
  tauto

theorem setRGB_eq (ids : LedIdNames) (sdk : Vendor) (s : CorsairSDK) (h : List VendorCall)
    (c : DeviceType) (r g b : Int) (hc : s.isConnected = true) (hr : InRange r g b) :
    setRGB ids sdk s h c r g b = discard (handlerOf ids c sdk s h r g b) := by
  have hr2 := (inRange_iff r g b).mpr hr
  unfold setRGB
  rw [if_pos hc, if_pos hr2]
  cases c <;> rfl

theorem handlerOf_eq (ids : LedIdNames) (sdk : Vendor) (s : CorsairSDK) (h : List VendorCall)
    (c : DeviceType) (r g b : Int) (hc : c ≠ .ALL) :
    handlerOf ids c sdk s h r g b = withDevices sdk s (keyOf c) (bufferOf ids r g b c) h := by
  cases c <;> first | rfl | exact absurd rfl hc

/-- A handler whose registry list is `devs` makes the sweep of its category, and
its result is the outcome reduction of the answers to the sweep. -/
theorem handlerOf_sweep (ids : LedIdNames) (sdk : Vendor) (s : CorsairSDK)
    (h : List VendorCall) (c : DeviceType) (r g b : Int) (devs : List Device) (hc : c ≠ .ALL)
    (hd : devicesAt s.devices (keyOf c) = some devs) :
    handlerOf ids c sdk s h r g b =
      ⟨outcomeOf ((answers sdk h (sweepCalls ids c r g b devs)).count true) devs.length, s,
        h ++ sweepCalls ids c r g b devs⟩ := by
  rw [handlerOf_eq ids sdk s h c r g b hc]
  unfold withDevices
  rw [hd]
  simp only [writeAndFlush_eq, bufferOf_write ids r g b c hc]
  rfl

theorem handlerOf_missing (ids : LedIdNames) (sdk : Vendor) (s : CorsairSDK)
    (h : List VendorCall) (c : DeviceType) (r g b : Int) (hc : c ≠ .ALL)
    (hd : devicesAt s.devices (keyOf c) = none) :
    handlerOf ids c sdk s h r g b = ⟨.error SDKException.OutOfRange, s, h⟩ := by
  rw [handlerOf_eq ids sdk s h c r g b hc]
  unfold withDevices
  rw [hd]

theorem keyOf_handler (c : DeviceType) (hc : c ∈ handlerCategories) : keyOf c = c ∧ c ≠ .ALL := by
  simp only [handlerCategories, List.mem_cons, List.mem_singleton, List.mem_nil_iff,
    or_false] at hc
  rcases hc with rfl | rfl | rfl | rfl | rfl | rfl | rfl | rfl | rfl | rfl <;>
    exact ⟨rfl, by decide⟩

/-- The dispatch to one of the ten categories with a handler of its own. -/
theorem setRGB_sweep (ids : LedIdNames) (sdk : Vendor) (s : CorsairSDK) (h : List VendorCall)
    (c : DeviceType) (r g b : Int) (devs : List Device) (hc : c ∈ handlerCategories)
    (hs : s.isConnected = true) (hr : InRange r g b) (hd : devicesAt s.devices c = some devs) :
    setRGB ids sdk s h c r g b =
      discard ⟨outcomeOf ((answers sdk h (sweepCalls ids c r g b devs)).count true) devs.length,
        s, h ++ sweepCalls ids c r g b devs⟩ := by
  obtain ⟨hk, hne⟩ := keyOf_handler c hc
  rw [setRGB_eq ids sdk s h c r g b hs hr,
    handlerOf_sweep ids sdk s h c r g b devs hne (by rw [hk]; exact hd)]

theorem discard_ok (x : Effect Nat) : (discard x).result = .ok () ↔ ∃ v, x.result = .ok v := by
  unfold discard
  cases hx : x.result with
  | error e => simp [Except.map]
  | ok v => simp [Except.map]

theorem discard_error (x : Effect Nat) (e : SDKException) :
    (discard x).result = .error e ↔ x.result = .error e := by
  unfold discard
  cases hx : x.result with
  | error e2 => simp [Except.map]
  | ok v => simp [Except.map]

theorem outcomeOf_ok (S N : Nat) : (∃ v, outcomeOf S N = .ok v) ↔ S = N + 1 := by
  unfold outcomeOf
  split_ifs with h1 h2 <;> simp [h1]

theorem outcomeOf_some (S N : Nat) :
    outcomeOf S N = .error SDKException.SomeRGBFailed ↔ 0 < S ∧ S < N + 1 := by
  unfold outcomeOf
  split_ifs with h1 h2
  · simp; omega
  · simp; omega
  · simp; omega

theorem outcomeOf_all (S N : Nat) (hS : S ≤ N + 1) :
    outcomeOf S N = .error SDKException.AllRGBFailed ↔ S = 0 := by
  unfold outcomeOf
  split_ifs with h1 h2
  · simp; omega
  · simp; omega
  · simp; omega

theorem sweepCalls_length (ids : LedIdNames) (c : DeviceType) (r g b : Int)
    (devs : List Device) : (sweepCalls ids c r g b devs).length = devs.length + 1 := by
  simp [sweepCalls]

/-! ## The claims -/

/-- C1: on a connected session, for every category and all integers r, g, b of
which one is below 0 or above 255, `setRGB` throws `InvalidRGBValue` and makes
no vendor call: the calls made so far are the ones made before. -/
theorem setRGB_invalid_rgb (ids : LedIdNames) (sdk : Vendor) (s : CorsairSDK)
    (h : List VendorCall) (c : DeviceType) (r g b : Int) (hs : s.isConnected = true)
    (hr : r < 0 ∨ 255 < r ∨ g < 0 ∨ 255 < g ∨ b < 0 ∨ 255 < b) :
    (setRGB ids sdk s h c r g b).result = .error SDKException.InvalidRGBValue ∧
      (setRGB ids sdk s h c r g b).calls = h := by
  have hn : ¬ (((r ≥ 0 ∧ r ≤ 255) ∧ (g ≥ 0 ∧ g ≤ 255)) ∧ (b ≥ 0 ∧ b ≤ 255)) := by omega
  unfold setRGB
  rw [if_pos hs, if_neg hn]
  exact ⟨rfl, rfl⟩

theorem setRGB_invalid_rgb_witness :
    (setRGB sampleNames (sampleVendor 0 .CDT_Unknown fun _ => true)
        (sampleSession [] [sampleDevice .Keyboard 0] []) [] .Keyboard 256 0 (-1)).result =
          .error SDKException.InvalidRGBValue ∧
      (setRGB sampleNames (sampleVendor 0 .CDT_Unknown fun _ => true)
        (sampleSession [] [sampleDevice .Keyboard 0] []) [] .Keyboard 256 0 (-1)).calls = [] :=
  setRGB_invalid_rgb sampleNames (sampleVendor 0 .CDT_Unknown fun _ => true)
    (sampleSession [] [sampleDevice .Keyboard 0] []) [] .Keyboard 256 0 (-1) rfl
    (Or.inr (Or.inl (by decide)))

/-- C2: on a session that is not connected, for every category and all integers
r, g, b, in range or not, `setRGB` throws `SDKNotConnected` and makes no vendor
call. -/
theorem setRGB_not_connected (ids : LedIdNames) (sdk : Vendor) (s : CorsairSDK)
    (h : List VendorCall) (c : DeviceType) (r g b : Int) (hs : s.isConnected = false) :
    (setRGB ids sdk s h c r g b).result = .error SDKException.SDKNotConnected ∧
      (setRGB ids sdk s h c r g b).calls = h := by
  unfold setRGB
  rw [hs]
  exact ⟨rfl, rfl⟩

theorem setRGB_not_connected_witness :
    (setRGB sampleNames (sampleVendor 0 .CDT_Unknown fun _ => true) CorsairSDK.new [] .ALL
        300 0 0).result = .error SDKException.SDKNotConnected ∧
      (setRGB sampleNames (sampleVendor 0 .CDT_Unknown fun _ => true) CorsairSDK.new [] .ALL
        300 0 0).calls = [] :=
  setRGB_not_connected sampleNames (sampleVendor 0 .CDT_Unknown fun _ => true) CorsairSDK.new []
    .ALL 300 0 0 rfl

/-- C3: for each of the ten categories with a handler of its own, on a connected
session and an accepted colour, with N the number of devices of the category and
S the number of vendor calls of the dispatch (the N buffered writes and the
flush) answered with success: S is at most N + 1, the dispatch returns exactly
when S = N + 1, throws `SomeRGBFailed` exactly when 0 < S < N + 1 and throws
`AllRGBFailed` exactly when S = 0; a category without devices whose flush
succeeds returns. -/
theorem outcome_reduction (ids : LedIdNames) (sdk : Vendor) (s : CorsairSDK)
    (h : List VendorCall) (c : DeviceType) (r g b : Int) (devs : List Device)
    (hc : c ∈ handlerCategories) (hs : s.isConnected = true) (hr : InRange r g b)
    (hd : devicesAt s.devices c = some devs) :
    successCount sdk h (setRGB ids sdk s h c r g b).calls ≤ devs.length + 1 ∧
    ((setRGB ids sdk s h c r g b).result = .ok () ↔
      successCount sdk h (setRGB ids sdk s h c r g b).calls = devs.length + 1) ∧
    ((setRGB ids sdk s h c r g b).result = .error SDKException.SomeRGBFailed ↔
      0 < successCount sdk h (setRGB ids sdk s h c r g b).calls ∧
        successCount sdk h (setRGB ids sdk s h c r g b).calls < devs.length + 1) ∧
    ((setRGB ids sdk s h c r g b).result = .error SDKException.AllRGBFailed ↔
      successCount sdk h (setRGB ids sdk s h c r g b).calls = 0) ∧
    (devs = [] → sdk.boolResult (h ++ [VendorCall.CorsairSetLedsColorsFlushBuffer]) = true →
      (setRGB ids sdk s h c r g b).result = .ok ()) := by
  rw [setRGB_sweep ids sdk s h c r g b devs hc hs hr hd]
  have hle : (answers sdk h (sweepCalls ids c r g b devs)).count true ≤ devs.length + 1 := by
    have h1 := List.count_le_length true (answers sdk h (sweepCalls ids c r g b devs))
    rw [answers_length, sweepCalls_length] at h1
    exact h1
  have hcalls : (discard ⟨outcomeOf ((answers sdk h (sweepCalls ids c r g b devs)).count true)
      devs.length, s, h ++ sweepCalls ids c r g b devs⟩ : Effect Unit).calls =
        h ++ sweepCalls ids c r g b devs := rfl
  simp only [successCount, hcalls, issuedSince_append, discard_ok, discard_error]
  refine ⟨hle, outcomeOf_ok _ _, outcomeOf_some _ _, outcomeOf_all _ _ hle, ?_⟩
  intro hnil hflush
  subst hnil
  apply (outcomeOf_ok _ _).mpr
  simp [sweepCalls, answers, hflush]

theorem outcome_reduction_witness :
    successCount (sampleVendor 0 .CDT_Unknown fun k => decide (k = 2))
        [] (setRGB sampleNames (sampleVendor 0 .CDT_Unknown fun k => decide (k = 2))
          (sampleSession [sampleDevice .Mouse 0, sampleDevice .Mouse 1] [] []) [] .Mouse
            10 20 30).calls ≤ 2 + 1 ∧
      (setRGB sampleNames (sampleVendor 0 .CDT_Unknown fun k => decide (k = 2))
          (sampleSession [sampleDevice .Mouse 0, sampleDevice .Mouse 1] [] []) [] .Mouse
            10 20 30).result = .error SDKException.SomeRGBFailed :=
  have w := outcome_reduction sampleNames (sampleVendor 0 .CDT_Unknown fun k => decide (k = 2))
    (sampleSession [sampleDevice .Mouse 0, sampleDevice .Mouse 1] [] []) [] .Mouse 10 20 30
    [sampleDevice .Mouse 0, sampleDevice .Mouse 1] (by decide) rfl (by decide) rfl
  ⟨w.1, rfl⟩

/-- C4, as amended: for each of the ten categories with a handler of its own, on
a connected session and an accepted colour, when exactly one of the N + 1 vendor
calls of the dispatch fails and the others succeed, the dispatch throws
`SomeRGBFailed` if the category has at least one device, and `AllRGBFailed` if it
has none (the flush is then the one unit, and it failed). -/
theorem one_unit_fails (ids : LedIdNames) (sdk : Vendor) (s : CorsairSDK)
    (h : List VendorCall) (c : DeviceType) (r g b : Int) (devs : List Device)
    (hc : c ∈ handlerCategories) (hs : s.isConnected = true) (hr : InRange r g b)
    (hd : devicesAt s.devices c = some devs)
    (hone : (answers sdk h (issuedSince h (setRGB ids sdk s h c r g b).calls)).count false = 1) :
    (setRGB ids sdk s h c r g b).result =
      if devs = [] then .error SDKException.AllRGBFailed
      else .error SDKException.SomeRGBFailed := by
  rw [setRGB_sweep ids sdk s h c r g b devs hc hs hr hd] at hone ⊢
  have hcalls : (discard ⟨outcomeOf ((answers sdk h (sweepCalls ids c r g b devs)).count true)
      devs.length, s, h ++ sweepCalls ids c r g b devs⟩ : Effect Unit).calls =
        h ++ sweepCalls ids c r g b devs := rfl
  rw [hcalls, issuedSince_append] at hone
  have hsum := List.count_true_add_count_false (answers sdk h (sweepCalls ids c r g b devs))
  rw [answers_length, sweepCalls_length, hone] at hsum
  have hS : (answers sdk h (sweepCalls ids c r g b devs)).count true = devs.length := by omega
  rw [hS]
  by_cases hnil : devs = []
  · subst hnil
    rw [if_pos rfl]
    exact (discard_error _ _).mpr ((outcomeOf_all 0 0 (by omega)).mpr rfl)
  · rw [if_neg hnil]
    have hpos : 0 < devs.length := List.length_pos.mpr hnil
    exact (discard_error _ _).mpr ((outcomeOf_some _ _).mpr ⟨hpos, by omega⟩)

theorem one_unit_fails_witness :
    (setRGB sampleNames (sampleVendor 0 .CDT_Unknown fun k => decide (k ≠ 1))
        (sampleSession [] [sampleDevice .Keyboard 0] []) [] .Keyboard 10 20 30).result =
      .error SDKException.SomeRGBFailed :=
  one_unit_fails sampleNames (sampleVendor 0 .CDT_Unknown fun k => decide (k ≠ 1))
    (sampleSession [] [sampleDevice .Keyboard 0] []) [] .Keyboard 10 20 30
    [sampleDevice .Keyboard 0] (by decide) rfl (by decide) rfl (by rfl)

/-- C4, as stated, fails on a category without devices: the flush is the only
unit, exactly one unit fails when it fails, and the dispatch throws
`AllRGBFailed`, not `SomeRGBFailed`. -/
theorem one_unit_fails_counterexample :
    (sampleSession [] [] []).isConnected = true ∧ InRange 10 20 30 ∧
    devicesAt (sampleSession [] [] []).devices .Mouse = some [] ∧
    (answers (sampleVendor 0 .CDT_Unknown fun _ => false) [] (issuedSince []
      (setRGB sampleNames (sampleVendor 0 .CDT_Unknown fun _ => false) (sampleSession [] [] [])
        [] .Mouse 10 20 30).calls)).count false = 1 ∧
    (setRGB sampleNames (sampleVendor 0 .CDT_Unknown fun _ => false) (sampleSession [] [] [])
      [] .Mouse 10 20 30).result = .error SDKException.AllRGBFailed ∧
    (setRGB sampleNames (sampleVendor 0 .CDT_Unknown fun _ => false) (sampleSession [] [] [])
      [] .Mouse 10 20 30).result ≠ .error SDKException.SomeRGBFailed :=
  ⟨rfl, by decide, rfl, rfl, rfl, by simp [show (setRGB sampleNames (sampleVendor 0 .CDT_Unknown fun _ => false)
      (sampleSession [] [] []) [] .Mouse 10 20 30).result =
        .error SDKException.AllRGBFailed from rfl]⟩

/-- C5: on a connected session, for an accepted colour and each of the ten
categories with a handler of its own whose registry list is `devs`, the vendor
calls of the dispatch are one buffered write per device of `devs`, in the order
of `devs`, addressed by the index of the device, carrying as many entries as the
layout of the category has ids, entry k being id k of the layout with the colour
(r, g, b); then one flush.  The vendor library `sdk` is arbitrary and the calls
do not depend on it, so they are the same whatever the calls return. -/
theorem dispatch_trace (ids : LedIdNames) (sdk : Vendor) (s : CorsairSDK)
    (h : List VendorCall) (c : DeviceType) (r g b : Int) (devs : List Device)
    (hc : c ∈ handlerCategories) (hs : s.isConnected = true) (hr : InRange r g b)
    (hd : devicesAt s.devices c = some devs) :
    (setRGB ids sdk s h c r g b).calls =
      h ++ (devs.map fun d => VendorCall.CorsairSetLedsColorsBufferByDeviceIndex d.deviceIndex
          (layoutFor ids c).length ((layoutFor ids c).map (coloured r g b))) ++
        [VendorCall.CorsairSetLedsColorsFlushBuffer] := by
  rw [setRGB_sweep ids sdk s h c r g b devs hc hs hr hd, List.append_assoc]
  rfl

theorem dispatch_trace_witness :
    (setRGB sampleNames (sampleVendor 0 .CDT_Unknown fun _ => false)
        (sampleSession [] [] [sampleDevice .Cooler 4, sampleDevice .Cooler 2]) [] .Cooler
          10 20 30).calls =
      [] ++ ([sampleDevice .Cooler 4, sampleDevice .Cooler 2].map fun d =>
          VendorCall.CorsairSetLedsColorsBufferByDeviceIndex d.deviceIndex
            (layoutFor sampleNames .Cooler).length
            ((layoutFor sampleNames .Cooler).map (coloured 10 20 30))) ++
        [VendorCall.CorsairSetLedsColorsFlushBuffer] :=
  dispatch_trace sampleNames (sampleVendor 0 .CDT_Unknown fun _ => false)
    (sampleSession [] [] [sampleDevice .Cooler 4, sampleDevice .Cooler 2]) [] .Cooler 10 20 30
    [sampleDevice .Cooler 4, sampleDevice .Cooler 2] (by decide) rfl (by decide) rfl

/-! ## The fan-out: lemmas -/

theorem setAllRgb_eq (ids : LedIdNames) (sdk : Vendor) (s : CorsairSDK) (h : List VendorCall)
    (r g b : Int) : setAllRgb ids sdk s h r g b = fanOutFrom ids sdk r g b fanOut 0 s h :=
  rfl

theorem outcomeOf_value (S N v : Nat) (h : outcomeOf S N = .ok v) : v = 1 := by
  unfold outcomeOf at h
  split_ifs at h
  exact (Except.ok.inj h).symm

/-- A handler leaves the object as it is, and the only value it returns is 1. -/
theorem handlerOf_returns (ids : LedIdNames) (sdk : Vendor) (s : CorsairSDK)
    (h : List VendorCall) (c : DeviceType) (r g b : Int) (hc : c ≠ .ALL) :
    (handlerOf ids c sdk s h r g b).self = s ∧
      ∀ v, (handlerOf ids c sdk s h r g b).result = .ok v → v = 1 := by
  cases hd : devicesAt s.devices (keyOf c) with
  | none =>
    rw [handlerOf_missing ids sdk s h c r g b hc hd]
    exact ⟨rfl, fun v hv => by simp at hv⟩
  | some devs =>
    rw [handlerOf_sweep ids sdk s h c r g b devs hc hd]
    exact ⟨rfl, fun v hv => outcomeOf_value _ _ v hv⟩

theorem addResult_error (x : Effect Nat) (k : Nat)
    (rest : Nat → CorsairSDK → List VendorCall → Effect Nat) (e : SDKException)
    (hx : x.result = .error e) : addResult x k rest = ⟨.error e, x.self, x.calls⟩ := by
  unfold addResult
  rw [hx]

theorem addResult_ok (x : Effect Nat) (k : Nat)
    (rest : Nat → CorsairSDK → List VendorCall → Effect Nat) (v : Nat)
    (hx : x.result = .ok v) : addResult x k rest = rest (k + v) x.self x.calls := by
  unfold addResult
  rw [hx]

/-- The fan-out returns exactly when each of the dispatches left returns and
`resultSum` reaches 9. -/
theorem fanOutFrom_ok (ids : LedIdNames) (sdk : Vendor) (s : CorsairSDK) (r g b : Int)
    (hs : s.isConnected = true) (hr : InRange r g b) (cs : List DeviceType)
    (hcs : ∀ c ∈ cs, c ≠ .ALL) :
    ∀ (k : Nat) (h : List VendorCall),
      (∃ v, (fanOutFrom ids sdk r g b cs k s h).result = .ok v) ↔
        (∀ res ∈ subDispatches ids sdk s r g b cs h, res = .ok ()) ∧ k + cs.length = 9 := by
  induction cs with
  | nil =>
    intro k h
    simp only [fanOutFrom, subDispatches, List.not_mem_nil, false_imp_iff, imp_true_iff,
      true_and, List.length_nil, Nat.add_zero]
    split_ifs with h1 h2 <;> simp [h1]
  | cons c cs ih =>
    intro k h
    have hc : c ≠ .ALL := hcs c (List.mem_cons_self c cs)
    have ih2 := ih (fun d hd => hcs d (List.mem_cons_of_mem c hd))
    obtain ⟨hself, hval⟩ := handlerOf_returns ids sdk s h c r g b hc
    simp only [fanOutFrom, subDispatches, List.mem_cons, forall_eq_or_imp, List.length_cons]
    rw [setRGB_eq ids sdk s h c r g b hs hr]
    cases hx : (handlerOf ids c sdk s h r g b).result with
    | error e =>
      rw [addResult_error _ _ _ e hx]
      have hne : (discard (handlerOf ids c sdk s h r g b)).result ≠ .ok () := by
        rw [(discard_error _ e).mpr hx]
        simp
      simp [hne]
    | ok v =>
      have hv : v = 1 := hval v hx
      subst hv
      rw [addResult_ok _ _ _ 1 hx, hself]
      have hok : (discard (handlerOf ids c sdk s h r g b)).result = .ok () :=
        (discard_ok _).mpr ⟨1, hx⟩
      have hcalls : (discard (handlerOf ids c sdk s h r g b)).calls =
          (handlerOf ids c sdk s h r g b).calls := rfl
      rw [ih2 (k + 1) _, hcalls]
      simp only [hok, true_and]
      constructor
      · rintro ⟨h1, h2⟩
        exact ⟨h1, by omega⟩
      · rintro ⟨h1, h2⟩
        exact ⟨h1, by omega⟩

theorem issuedSince_self (h : List VendorCall) : issuedSince h h = [] := by
  simp [issuedSince]

/-- The calls of a dispatch to a category other than `ALL` are none, or the
sweep of the category over a device list. -/
theorem setRGB_issued (ids : LedIdNames) (sdk : Vendor) (s : CorsairSDK) (h : List VendorCall)
    (c : DeviceType) (r g b : Int) (hc : c ≠ .ALL) :
    issuedSince h (setRGB ids sdk s h c r g b).calls = [] ∨
      ∃ devs, issuedSince h (setRGB ids sdk s h c r g b).calls = sweepCalls ids c r g b devs := by
  by_cases hs : s.isConnected = true
  · by_cases hr : InRange r g b
    · rw [setRGB_eq ids sdk s h c r g b hs hr]
      cases hd : devicesAt s.devices (keyOf c) with
      | none =>
        rw [handlerOf_missing ids sdk s h c r g b hc hd]
        exact Or.inl (issuedSince_self h)
      | some devs =>
        rw [handlerOf_sweep ids sdk s h c r g b devs hc hd]
        exact Or.inr ⟨devs, issuedSince_append h _⟩
    · have hn := fun hh => hr ((inRange_iff r g b).mp hh)
      left
      unfold setRGB
      rw [if_pos hs, if_neg hn]
      exact issuedSince_self h
  · left
    unfold setRGB
    rw [if_neg hs]
    exact issuedSince_self h

theorem mem_sweepCalls (ids : LedIdNames) (c : DeviceType) (r g b : Int) (devs : List Device)
    (idx : Int) (size : Nat) (leds : List CorsairLedColor)
    (hw : VendorCall.CorsairSetLedsColorsBufferByDeviceIndex idx size leds ∈
      sweepCalls ids c r g b devs) :
    size = (layoutFor ids c).length ∧ leds = (layoutFor ids c).map (coloured r g b) := by
  simp only [sweepCalls, writeTo, List.mem_append, List.mem_map, List.mem_singleton,
    reduceCtorEq, or_false] at hw
  obtain ⟨d, _, hd⟩ := hw
  injection hd with h1 h2 h3
  exact ⟨h2.symm, h3.symm⟩

theorem map_ledId_coloured (r g b : Int) (l : List Nat) :
    (l.map (coloured r g b)).map (fun v => v.ledId) = l := by
  induction l with
  | nil => rfl
  | cons x xs ih => simp [coloured, ih]

/-! ## The claims on the fan-out and on the layouts -/

/-- C6: on a connected session and for an accepted colour, the dispatch to `ALL`
returns if and only if each of the nine dispatches to Mouse, Keyboard, Headset,
HeadsetStand, RAM, GPU, ETC, Mousemat and Mainboard, made one after the other,
returns. -/
theorem all_success_iff (ids : LedIdNames) (sdk : Vendor) (s : CorsairSDK)
    (h : List VendorCall) (r g b : Int) (hs : s.isConnected = true) (hr : InRange r g b) :
    (setRGB ids sdk s h .ALL r g b).result = .ok () ↔
      ∀ res ∈ subDispatches ids sdk s r g b fanOut h, res = .ok () := by
  rw [setRGB_eq ids sdk s h .ALL r g b hs hr, discard_ok]
  have hall : handlerOf ids .ALL sdk s h r g b = fanOutFrom ids sdk r g b fanOut 0 s h := rfl
  rw [hall, fanOutFrom_ok ids sdk s r g b hs hr fanOut (by decide) 0 h]
  simp [fanOut]

theorem all_success_iff_witness :
    subDispatches sampleNames (sampleVendor 0 .CDT_Unknown fun _ => true)
        (sampleSession [sampleDevice .Mouse 1] [sampleDevice .Keyboard 0] []) 10 20 30 fanOut [] =
      List.replicate 9 (.ok ()) ∧
    (setRGB sampleNames (sampleVendor 0 .CDT_Unknown fun _ => true)
      (sampleSession [sampleDevice .Mouse 1] [sampleDevice .Keyboard 0] []) [] .ALL
        10 20 30).result = .ok () :=
  have hsub : subDispatches sampleNames (sampleVendor 0 .CDT_Unknown fun _ => true)
      (sampleSession [sampleDevice .Mouse 1] [sampleDevice .Keyboard 0] []) 10 20 30 fanOut [] =
        List.replicate 9 (.ok ()) := rfl
  ⟨hsub, (all_success_iff sampleNames (sampleVendor 0 .CDT_Unknown fun _ => true)
    (sampleSession [sampleDevice .Mouse 1] [sampleDevice .Keyboard 0] []) [] 10 20 30 rfl
    (by decide)).mpr (by
      rw [hsub]
      intro res hres
      exact List.eq_of_mem_replicate hres)⟩

/-- C7, the code at the failing input: a session connected to a vendor library
with one mouse that answers its first seven calls with success (the control
request, the write to the mouse and the flush of Mouse among them) and refuses
every later call.  The dispatch to Mouse returns and the dispatch to Keyboard
throws `AllRGBFailed`; the dispatch to `ALL` throws `AllRGBFailed`, where the
claim and the comment of `setAllRgb` have `SomeRGBFailed`. -/
theorem all_partial_failing_input :
    (connect (sampleVendor 1 .CDT_Mouse fun k => decide (k ≤ 7)) CorsairSDK.new []).result =
      .ok () ∧
    (connect (sampleVendor 1 .CDT_Mouse fun k => decide (k ≤ 7)) CorsairSDK.new []).self =
      sampleSession [sampleDevice .Mouse 0] [] [] ∧
    (subDispatches sampleNames (sampleVendor 1 .CDT_Mouse fun k => decide (k ≤ 7))
      (sampleSession [sampleDevice .Mouse 0] [] []) 10 20 30 fanOut
      (connect (sampleVendor 1 .CDT_Mouse fun k => decide (k ≤ 7)) CorsairSDK.new []).calls).take 2
        = [.ok (), .error SDKException.AllRGBFailed] ∧
    (setRGB sampleNames (sampleVendor 1 .CDT_Mouse fun k => decide (k ≤ 7))
      (sampleSession [sampleDevice .Mouse 0] [] [])
      (connect (sampleVendor 1 .CDT_Mouse fun k => decide (k ≤ 7)) CorsairSDK.new []).calls
      .ALL 10 20 30).result = .error SDKException.AllRGBFailed :=
  ⟨rfl, rfl, rfl, rfl⟩

/-- C8: on a connected session and for an accepted colour, when the dispatch to
Mouse throws `SomeRGBFailed`, the dispatch to `ALL` throws `SomeRGBFailed`,
whatever the other eight categories would yield, so also when each of them would
return. -/
theorem all_mouse_partial (ids : LedIdNames) (sdk : Vendor) (s : CorsairSDK)
    (h : List VendorCall) (r g b : Int) (hs : s.isConnected = true) (hr : InRange r g b)
    (hm : (setRGB ids sdk s h .Mouse r g b).result = .error SDKException.SomeRGBFailed) :
    (setRGB ids sdk s h .ALL r g b).result = .error SDKException.SomeRGBFailed := by
  rw [setRGB_eq ids sdk s h .Mouse r g b hs hr, discard_error] at hm
  rw [setRGB_eq ids sdk s h .ALL r g b hs hr, discard_error]
  have hall : handlerOf ids .ALL sdk s h r g b =
      addResult (handlerOf ids .Mouse sdk s h r g b) 0 fun resultSum self h =>
        fanOutFrom ids sdk r g b fanOut.tail resultSum self h := rfl
  rw [hall, addResult_error _ _ _ _ hm]

theorem all_mouse_partial_witness :
    subDispatches sampleNames (sampleVendor 0 .CDT_Unknown fun k => decide (k ≠ 1))
        (sampleSession [sampleDevice .Mouse 1] [sampleDevice .Keyboard 0] []) 10 20 30 fanOut [] =
      [.error SDKException.SomeRGBFailed, .ok (), .ok (), .ok (), .ok (), .ok (), .ok (), .ok (),
        .ok ()] ∧
    (setRGB sampleNames (sampleVendor 0 .CDT_Unknown fun k => decide (k ≠ 1))
      (sampleSession [sampleDevice .Mouse 1] [sampleDevice .Keyboard 0] []) [] .ALL
        10 20 30).result = .error SDKException.SomeRGBFailed :=
  ⟨rfl, all_mouse_partial sampleNames (sampleVendor 0 .CDT_Unknown fun k => decide (k ≠ 1))
    (sampleSession [sampleDevice .Mouse 1] [sampleDevice .Keyboard 0] []) [] 10 20 30 rfl
    (by decide) rfl⟩

/-- C9, the code at the failing input: a session connected to a vendor library
with one keyboard that grants control and refuses every later call.  The flush
of Mouse fails, `setMouseRgb` throws, and the dispatch to `ALL` ends there: its
vendor calls are that one flush, with no write to the keyboard and none of the
other eight flushes. -/
theorem all_sweep_failing_input :
    (connect (sampleVendor 1 .CDT_Keyboard fun k => decide (k ≤ 3)) CorsairSDK.new []).result =
      .ok () ∧
    (connect (sampleVendor 1 .CDT_Keyboard fun k => decide (k ≤ 3)) CorsairSDK.new []).self =
      sampleSession [] [sampleDevice .Keyboard 0] [] ∧
    issuedSince
      (connect (sampleVendor 1 .CDT_Keyboard fun k => decide (k ≤ 3)) CorsairSDK.new []).calls
      (setRGB sampleNames (sampleVendor 1 .CDT_Keyboard fun k => decide (k ≤ 3))
        (sampleSession [] [sampleDevice .Keyboard 0] [])
        (connect (sampleVendor 1 .CDT_Keyboard fun k => decide (k ≤ 3)) CorsairSDK.new []).calls
        .ALL 10 20 30).calls = [VendorCall.CorsairSetLedsColorsFlushBuffer] ∧
    (setRGB sampleNames (sampleVendor 1 .CDT_Keyboard fun k => decide (k ≤ 3))
      (sampleSession [] [sampleDevice .Keyboard 0] [])
      (connect (sampleVendor 1 .CDT_Keyboard fun k => decide (k ≤ 3)) CorsairSDK.new []).calls
      .ALL 10 20 30).result = .error SDKException.AllRGBFailed :=
  ⟨rfl, rfl, rfl, rfl⟩

/-- C10: every buffered write of a dispatch to Keyboard carries 148 entries, the
ids 1 to 147 followed by the id 154; every buffered write of a dispatch to Mouse
carries 20 entries and every buffered write of a dispatch to Cooler 1050, for
every colour, every session and registry, and every vendor library. -/
theorem led_entry_counts (ids : LedIdNames) (sdk : Vendor) (s : CorsairSDK)
    (h : List VendorCall) (c : DeviceType) (r g b : Int) (idx : Int) (size : Nat)
    (leds : List CorsairLedColor)
    (hw : VendorCall.CorsairSetLedsColorsBufferByDeviceIndex idx size leds ∈
      issuedSince h (setRGB ids sdk s h c r g b).calls) :
    (c = .Keyboard → size = 148 ∧ leds.length = 148 ∧
      leds.map (fun v => v.ledId) = List.range' 1 147 ++ [154]) ∧
    (c = .Mouse → size = 20 ∧ leds.length = 20) ∧
    (c = .Cooler → size = 1050 ∧ leds.length = 1050) := by
  have key : c ≠ .ALL →
      size = (layoutFor ids c).length ∧ leds = (layoutFor ids c).map (coloured r g b) := by
    intro hc
    rcases setRGB_issued ids sdk s h c r g b hc with h0 | ⟨devs, h1⟩
    · rw [h0] at hw
      simp at hw
    · rw [h1] at hw
      exact mem_sweepCalls ids c r g b devs idx size leds hw
  refine ⟨?_, ?_, ?_⟩
  · intro hc
    subst hc
    obtain ⟨h1, h2⟩ := key (by decide)
    have hlen : (layoutFor ids .Keyboard).length = 148 := by simp [layoutFor]
    refine ⟨h1.trans hlen, ?_, ?_⟩
    · rw [h2, List.length_map, hlen]
    · rw [h2, map_ledId_coloured]
      rfl
  · intro hc
    subst hc
    obtain ⟨h1, h2⟩ := key (by decide)
    have hlen : (layoutFor ids .Mouse).length = 20 := by simp [layoutFor]
    refine ⟨h1.trans hlen, ?_⟩
    rw [h2, List.length_map, hlen]
  · intro hc
    subst hc
    obtain ⟨h1, h2⟩ := key (by decide)
    have hlen : (layoutFor ids .Cooler).length = 1050 := by simp [layoutFor]
    refine ⟨h1.trans hlen, ?_⟩
    rw [h2, List.length_map, hlen]

theorem led_entry_counts_witness :
    VendorCall.CorsairSetLedsColorsBufferByDeviceIndex 0 (layoutFor sampleNames .Keyboard).length
        ((layoutFor sampleNames .Keyboard).map (coloured 10 20 30)) ∈
      issuedSince [] (setRGB sampleNames (sampleVendor 0 .CDT_Unknown fun _ => true)
        (sampleSession [] [sampleDevice .Keyboard 0] []) [] .Keyboard 10 20 30).calls ∧
    (layoutFor sampleNames .Keyboard).length = 148 :=
  have hmem : VendorCall.CorsairSetLedsColorsBufferByDeviceIndex 0
      (layoutFor sampleNames .Keyboard).length
        ((layoutFor sampleNames .Keyboard).map (coloured 10 20 30)) ∈
      issuedSince [] (setRGB sampleNames (sampleVendor 0 .CDT_Unknown fun _ => true)
        (sampleSession [] [sampleDevice .Keyboard 0] []) [] .Keyboard 10 20 30).calls := by
    rw [setRGB_sweep sampleNames (sampleVendor 0 .CDT_Unknown fun _ => true)
      (sampleSession [] [sampleDevice .Keyboard 0] []) [] .Keyboard 10 20 30
      [sampleDevice .Keyboard 0] (by decide) rfl (by decide) rfl]
    exact List.mem_cons_self _ _
  ⟨hmem, ((led_entry_counts sampleNames (sampleVendor 0 .CDT_Unknown fun _ => true)
    (sampleSession [] [sampleDevice .Keyboard 0] []) [] .Keyboard 10 20 30 0 _ _ hmem).1 rfl).1⟩

/-! ## The keyboard layout -/

theorem setLedId_drop (buf : List CorsairLedColor) (i id n : Nat) (hn : i < n) :
    (setLedId buf i id).drop n = buf.drop n := by
  induction buf generalizing i n with
  | nil => simp [setLedId]
  | cons v vs ih =>
    cases n with
    | zero => omega
    | succ m =>
      cases i with
      | zero => simp [setLedId]
      | succ j => simp [setLedId, ih j m (by omega)]

theorem storeLedIdsFrom_drop (f : Nat → Nat) (n : Nat) (todo : Nat) :
    ∀ (i : Nat) (st : List CorsairLedColor × Nat), st.2 + todo ≤ n →
      (storeLedIdsFrom f todo i st).1.drop n = st.1.drop n ∧
        (storeLedIdsFrom f todo i st).2 = st.2 + todo := by
  induction todo with
  | zero =>
    intro i st _
    exact ⟨rfl, rfl⟩
  | succ m ih =>
    intro i st hst
    have h1 := ih (i + 1) (storeLedId (f i) st) (by simp only [storeLedId]; omega)
    simp only [storeLedIdsFrom]
    refine ⟨?_, ?_⟩
    · rw [h1.1]
      simp only [storeLedId]
      exact setLedId_drop st.1 st.2 (f i) n (by omega)
    · rw [h1.2]
      simp only [storeLedId]
      omega

/-- The entries of the keyboard array from position 148 on are as the colour
loop left them. -/
theorem keyboard_tail (r g b : Int) :
    (keyboardLedValues r g b).1.drop 148 =
      List.replicate 51 { ledId := 0, r := r, g := g, b := b } := by
  have h1 := storeLedIdsFrom_drop (fun i => i) 148 147 1 (newLedValues 199 r g b, 0) (by simp)
  have h2 : (storeLedId 154 (storeLedIdsFrom (fun i => i) 147 1
      (newLedValues 199 r g b, 0))).1.drop 148 = (newLedValues 199 r g b).drop 148 := by
    simp only [storeLedId]
    rw [setLedId_drop _ _ 154 148 (by rw [h1.2]; simp), h1.1]
  have h3 : keyboardLedValues r g b = storeLedId 154 (storeLedIdsFrom (fun i => i) 147 1
      (newLedValues 199 r g b, 0)) := rfl
  rw [h3, h2]
  simp [newLedValues, List.drop_replicate]

theorem keyboardIds_eq (r g b : Int) : keyboardIds r g b = List.range' 1 147 ++ [154] := by
  obtain ⟨_, h2, _, h4⟩ := keyboard_filled sampleNames r g b
  unfold keyboardIds
  rw [h4, map_ledId_coloured]
  rfl

/-- C11, the code at the failing input, which is every call of `setKeyboardRgb`:
for every colour the ids handed to the vendor library are 1 to 147 and then the
one id 154, 148 entries of an array declared with 199.  The loop from 170 while
`i < 18` that follows the store of 154 changes neither the array nor `ledCount`,
so no id from 170 on is handed over and the last 51 entries of the array are
never given an id. -/
theorem keyboard_layout_failing_input (r g b : Int) :
    keyboardIds r g b = List.range' 1 147 ++ [154] ∧
    (keyboardLedValues r g b).2 = 148 ∧
    (keyboardLedValues r g b).1.length = 199 ∧
    (∀ st, storeLedIds 170 18 (fun i => i) st = st) ∧
    (∀ x ∈ keyboardIds r g b, x < 170) ∧
    (keyboardLedValues r g b).1.drop 148 =
      List.replicate 51 { ledId := 0, r := r, g := g, b := b } := by
  obtain ⟨h1, h2, _, _⟩ := keyboard_filled sampleNames r g b
  have hcount : (keyboardLedValues r g b).2 = 148 := by
    rw [h2]
    simp [layoutFor]
  refine ⟨keyboardIds_eq r g b, hcount, h1, fun st => rfl, ?_, ?_⟩
  · intro x hx
    rw [keyboardIds_eq, List.mem_append, List.mem_range'_1, List.mem_singleton] at hx
    omega
  · exact keyboard_tail r g b

/-! ## Connection and disconnection: lemmas -/

theorem connect_handshake_error (sdk : Vendor) (s : CorsairSDK) (h : List VendorCall)
    (hs : s.isConnected = false)
    (he : sdk.lastError (h ++ [.CorsairPerformProtocolHandshake, .CorsairGetLastError]) ≠
      .CE_Success) :
    connect sdk s h =
      ⟨.error (exceptionOf (sdk.lastError
          (h ++ [.CorsairPerformProtocolHandshake, .CorsairGetLastError]))), s,
        h ++ [.CorsairPerformProtocolHandshake, .CorsairGetLastError]⟩ := by
  have hn : ¬ (s.isConnected = true) := by simp [hs]
  unfold connect
  simp only [if_neg hn, List.append_assoc, List.singleton_append]
  cases hc : sdk.lastError (h ++ [.CorsairPerformProtocolHandshake, .CorsairGetLastError]) with
  | CE_Success => exact absurd hc he
  | _ => rfl

theorem connect_denied (sdk : Vendor) (s : CorsairSDK) (h : List VendorCall)
    (hs : s.isConnected = false)
    (he : sdk.lastError (h ++ [.CorsairPerformProtocolHandshake, .CorsairGetLastError]) =
      .CE_Success)
    (hb : sdk.boolResult (h ++ [.CorsairPerformProtocolHandshake, .CorsairGetLastError,
      .CorsairRequestControl]) = false) :
    connect sdk s h =
      ⟨.error SDKException.SDKConnectionFailed, s,
        h ++ [.CorsairPerformProtocolHandshake, .CorsairGetLastError,
          .CorsairRequestControl]⟩ := by
  have hn : ¬ (s.isConnected = true) := by simp [hs]
  unfold connect
  simp only [if_neg hn, List.append_assoc, List.singleton_append, he]
  cases s
  simp only at hs
  simp [hs, hb]

theorem connect_granted (sdk : Vendor) (s : CorsairSDK) (h : List VendorCall)
    (hs : s.isConnected = false)
    (he : sdk.lastError (h ++ [.CorsairPerformProtocolHandshake, .CorsairGetLastError]) =
      .CE_Success)
    (hb : sdk.boolResult (h ++ [.CorsairPerformProtocolHandshake, .CorsairGetLastError,
      .CorsairRequestControl]) = true) :
    connect sdk s h =
      ⟨.ok (),
        (setAllDeviceInfo sdk { s with isConnected := true }
          (h ++ [.CorsairPerformProtocolHandshake, .CorsairGetLastError,
            .CorsairRequestControl])).1,
        (setAllDeviceInfo sdk { s with isConnected := true }
          (h ++ [.CorsairPerformProtocolHandshake, .CorsairGetLastError,
            .CorsairRequestControl])).2⟩ := by
  have hn : ¬ (s.isConnected = true) := by simp [hs]
  unfold connect
  simp only [if_neg hn, List.append_assoc, List.singleton_append, he]
  simp [hb]

theorem disconnect_ok (sdk : Vendor) (s : CorsairSDK) (h : List VendorCall)
    (hs : s.isConnected = true)
    (he : sdk.lastError (h ++ [.CorsairReleaseControl, .CorsairGetLastError]) = .CE_Success) :
    disconnect sdk s h =
      ⟨.ok (), { s with isConnected := false },
        h ++ [.CorsairReleaseControl, .CorsairGetLastError]⟩ := by
  unfold disconnect
  simp only [if_pos hs, List.append_assoc, List.singleton_append, he]

theorem disconnect_error (sdk : Vendor) (s : CorsairSDK) (h : List VendorCall)
    (hs : s.isConnected = true)
    (he : sdk.lastError (h ++ [.CorsairReleaseControl, .CorsairGetLastError]) ≠ .CE_Success) :
    disconnect sdk s h =
      ⟨.error (exceptionOf (sdk.lastError (h ++ [.CorsairReleaseControl, .CorsairGetLastError]))),
        s, h ++ [.CorsairReleaseControl, .CorsairGetLastError]⟩ := by
  unfold disconnect
  simp only [if_pos hs, List.append_assoc, List.singleton_append]
  cases hc : sdk.lastError (h ++ [.CorsairReleaseControl, .CorsairGetLastError]) with
  | CE_Success => exact absurd hc he
  | _ => rfl

theorem disconnect_not_connected (sdk : Vendor) (s : CorsairSDK) (h : List VendorCall)
    (hs : s.isConnected = false) :
    disconnect sdk s h = ⟨.error SDKException.SDKNotConnected, s, h⟩ := by
  unfold disconnect
  simp [hs]

theorem exceptionOf_other (e : CorsairError) (h1 : e ≠ .CE_IncompatibleProtocol)
    (h2 : e ≠ .CE_ServerNotFound) : exceptionOf e = SDKException.SDKUnexpectedError := by
  cases e <;> first | rfl | exact absurd rfl h1 | exact absurd rfl h2

/-! ## Connection and disconnection: the claims -/

/-- C12: on a session that is connected, `connect` throws `SDKAlreadyConnected`,
makes no vendor call and leaves the object, so the connected flag and the whole
device map, as it was. -/
theorem connect_already_connected (sdk : Vendor) (s : CorsairSDK) (h : List VendorCall)
    (hs : s.isConnected = true) :
    (connect sdk s h).result = .error SDKException.SDKAlreadyConnected ∧
      (connect sdk s h).calls = h ∧ (connect sdk s h).self = s := by
  unfold connect
  rw [if_pos hs]
  exact ⟨rfl, rfl, rfl⟩

theorem connect_already_connected_witness :
    (connect (sampleVendor 2 .CDT_Mouse fun _ => true)
        (sampleSession [] [sampleDevice .Keyboard 0] []) []).result =
          .error SDKException.SDKAlreadyConnected ∧
      (connect (sampleVendor 2 .CDT_Mouse fun _ => true)
        (sampleSession [] [sampleDevice .Keyboard 0] []) []).calls = [] ∧
      (connect (sampleVendor 2 .CDT_Mouse fun _ => true)
        (sampleSession [] [sampleDevice .Keyboard 0] []) []).self =
          sampleSession [] [sampleDevice .Keyboard 0] [] :=
  connect_already_connected (sampleVendor 2 .CDT_Mouse fun _ => true)
    (sampleSession [] [sampleDevice .Keyboard 0] []) [] rfl

/-- C13: on a session that is not connected, with `e` the error the vendor
library reports after the handshake: `connect` throws `SDKVersionMismatch` when
`e` is incompatible protocol, `SDKServiceNotRunning` when `e` is server not
found, `SDKUnexpectedError` when `e` is any other code than success, and
`SDKConnectionFailed` when `e` is success and the control request is denied.
Whenever `connect` throws, the session is not connected afterwards, the device
map is the one before, and neither the device count nor a device was asked
for. -/
theorem connect_failure (sdk : Vendor) (s : CorsairSDK) (h : List VendorCall)
    (hs : s.isConnected = false) :
    (sdk.lastError (h ++ [.CorsairPerformProtocolHandshake, .CorsairGetLastError]) =
        .CE_IncompatibleProtocol →
      (connect sdk s h).result = .error SDKException.SDKVersionMismatch) ∧
    (sdk.lastError (h ++ [.CorsairPerformProtocolHandshake, .CorsairGetLastError]) =
        .CE_ServerNotFound →
      (connect sdk s h).result = .error SDKException.SDKServiceNotRunning) ∧
    (sdk.lastError (h ++ [.CorsairPerformProtocolHandshake, .CorsairGetLastError]) ≠
        .CE_Success →
      sdk.lastError (h ++ [.CorsairPerformProtocolHandshake, .CorsairGetLastError]) ≠
        .CE_IncompatibleProtocol →
      sdk.lastError (h ++ [.CorsairPerformProtocolHandshake, .CorsairGetLastError]) ≠
        .CE_ServerNotFound →
      (connect sdk s h).result = .error SDKException.SDKUnexpectedError) ∧
    (sdk.lastError (h ++ [.CorsairPerformProtocolHandshake, .CorsairGetLastError]) =
        .CE_Success →
      sdk.boolResult (h ++ [.CorsairPerformProtocolHandshake, .CorsairGetLastError,
        .CorsairRequestControl]) = false →
      (connect sdk s h).result = .error SDKException.SDKConnectionFailed) ∧
    ((connect sdk s h).result ≠ .ok () →
      (connect sdk s h).self.isConnected = false ∧
        (connect sdk s h).self.devices = s.devices ∧
        VendorCall.CorsairGetDeviceCount ∉ issuedSince h (connect sdk s h).calls ∧
        ∀ i, VendorCall.CorsairGetDeviceInfo i ∉ issuedSince h (connect sdk s h).calls) := by
  refine ⟨?_, ?_, ?_, ?_, ?_⟩
  · intro he
    rw [connect_handshake_error sdk s h hs (by rw [he]; decide), he]
    rfl
  · intro he
    rw [connect_handshake_error sdk s h hs (by rw [he]; decide), he]
    rfl
  · intro h0 h1 h2
    rw [connect_handshake_error sdk s h hs h0, exceptionOf_other _ h1 h2]
  · intro he hb
    rw [connect_denied sdk s h hs he hb]
  · intro hr
    by_cases he : sdk.lastError (h ++ [.CorsairPerformProtocolHandshake,
        .CorsairGetLastError]) = .CE_Success
    · cases hb : sdk.boolResult (h ++ [.CorsairPerformProtocolHandshake,
          .CorsairGetLastError, .CorsairRequestControl])
      · rw [connect_denied sdk s h hs he hb]
        simp [hs, issuedSince_append]
      · rw [connect_granted sdk s h hs he hb] at hr
        exact absurd rfl hr
    · rw [connect_handshake_error sdk s h hs he]
      simp [hs, issuedSince_append]

theorem connect_failure_witness :
    (connect (errorVendor .CE_ServerNotFound true) CorsairSDK.new []).result =
      .error SDKException.SDKServiceNotRunning :=
  (connect_failure (errorVendor .CE_ServerNotFound true) CorsairSDK.new [] rfl).2.1 rfl

/-- C16: `disconnect` on a session that is not connected throws `SDKNotConnected`,
makes no vendor call and changes nothing.  On a connected session it releases
control once and asks for the last error; when that is success it returns with
the session not connected; otherwise it throws `SDKVersionMismatch`
(incompatible protocol), `SDKServiceNotRunning` (server not found) or
`SDKUnexpectedError` (any other code), and the object, so the connected flag
that was set, is as before. -/
theorem disconnect_transition (sdk : Vendor) (s : CorsairSDK) (h : List VendorCall) :
    (s.isConnected = false →
      (disconnect sdk s h).result = .error SDKException.SDKNotConnected ∧
        (disconnect sdk s h).calls = h ∧ (disconnect sdk s h).self = s) ∧
    (s.isConnected = true →
      (disconnect sdk s h).calls = h ++ [.CorsairReleaseControl, .CorsairGetLastError] ∧
      (sdk.lastError (h ++ [.CorsairReleaseControl, .CorsairGetLastError]) = .CE_Success →
        (disconnect sdk s h).result = .ok () ∧
          (disconnect sdk s h).self.isConnected = false) ∧
      (sdk.lastError (h ++ [.CorsairReleaseControl, .CorsairGetLastError]) =
          .CE_IncompatibleProtocol →
        (disconnect sdk s h).result = .error SDKException.SDKVersionMismatch ∧
          (disconnect sdk s h).self = s) ∧
      (sdk.lastError (h ++ [.CorsairReleaseControl, .CorsairGetLastError]) =
          .CE_ServerNotFound →
        (disconnect sdk s h).result = .error SDKException.SDKServiceNotRunning ∧
          (disconnect sdk s h).self = s) ∧
      (sdk.lastError (h ++ [.CorsairReleaseControl, .CorsairGetLastError]) ≠ .CE_Success →
        sdk.lastError (h ++ [.CorsairReleaseControl, .CorsairGetLastError]) ≠
          .CE_IncompatibleProtocol →
        sdk.lastError (h ++ [.CorsairReleaseControl, .CorsairGetLastError]) ≠
          .CE_ServerNotFound →
        (disconnect sdk s h).result = .error SDKException.SDKUnexpectedError ∧
          (disconnect sdk s h).self = s)) := by
  constructor
  · intro hs
    rw [disconnect_not_connected sdk s h hs]
    exact ⟨rfl, rfl, rfl⟩
  · intro hs
    refine ⟨?_, ?_, ?_, ?_, ?_⟩
    · by_cases he : sdk.lastError (h ++ [.CorsairReleaseControl, .CorsairGetLastError]) =
          .CE_Success
      · rw [disconnect_ok sdk s h hs he]
      · rw [disconnect_error sdk s h hs he]
    · intro he
      rw [disconnect_ok sdk s h hs he]
      exact ⟨rfl, rfl⟩
    · intro he
      rw [disconnect_error sdk s h hs (by rw [he]; decide), he]
      exact ⟨rfl, rfl⟩
    · intro he
      rw [disconnect_error sdk s h hs (by rw [he]; decide), he]
      exact ⟨rfl, rfl⟩
    · intro h0 h1 h2
      rw [disconnect_error sdk s h hs h0, exceptionOf_other _ h1 h2]
      exact ⟨rfl, rfl⟩

theorem disconnect_transition_witness :
    (disconnect (errorVendor .CE_NoControl true) (sampleSession [] [] []) []).result =
        .error SDKException.SDKUnexpectedError ∧
      (disconnect (errorVendor .CE_NoControl true) (sampleSession [] [] []) []).self =
        sampleSession [] [] [] :=
  (disconnect_transition (errorVendor .CE_NoControl true) (sampleSession [] [] [])
    []).2 rfl |>.2.2.2.2 (by decide) (by decide) (by decide)

/-- C17: in every state of the session, `getDevices` throws `SDKNotConnected`
exactly when the session is not connected, and on a connected session returns
the device map; it makes no vendor call and leaves the object as it is.  So it
throws on the session as constructed, and on the session that a `disconnect`
which returned leaves behind. -/
theorem getDevices_connected (sdk : Vendor) (s : CorsairSDK) (h k : List VendorCall) :
    ((getDevices s h).result = .error SDKException.SDKNotConnected ↔ s.isConnected = false) ∧
    (s.isConnected = true → (getDevices s h).result = .ok s.devices) ∧
    (getDevices s h).self = s ∧ (getDevices s h).calls = h ∧
    (getDevices CorsairSDK.new h).result = .error SDKException.SDKNotConnected ∧
    ((disconnect sdk s h).result = .ok () →
      (getDevices (disconnect sdk s h).self k).result =
        .error SDKException.SDKNotConnected) := by
  refine ⟨?_, ?_, ?_, ?_, rfl, ?_⟩
  · unfold getDevices
    cases hs : s.isConnected <;> simp
  · intro hs
    unfold getDevices
    simp [hs]
  · unfold getDevices
    cases hs : s.isConnected <;> simp
  · unfold getDevices
    cases hs : s.isConnected <;> simp
  · intro hd
    have hflag : (disconnect sdk s h).self.isConnected = false := by
      cases hs : s.isConnected
      · rw [disconnect_not_connected sdk s h hs]
        exact hs
      · by_cases he : sdk.lastError (h ++ [.CorsairReleaseControl, .CorsairGetLastError]) =
            .CE_Success
        · rw [disconnect_ok sdk s h hs he]
        · rw [disconnect_error sdk s h hs he] at hd
          simp at hd
    unfold getDevices
    simp [hflag]

theorem getDevices_connected_witness :
    (getDevices (disconnect (sampleVendor 1 .CDT_Mouse fun _ => true)
      (connect (sampleVendor 1 .CDT_Mouse fun _ => true) CorsairSDK.new []).self
      (connect (sampleVendor 1 .CDT_Mouse fun _ => true) CorsairSDK.new []).calls).self
        []).result = .error SDKException.SDKNotConnected :=
  (getDevices_connected (sampleVendor 1 .CDT_Mouse fun _ => true)
    (connect (sampleVendor 1 .CDT_Mouse fun _ => true) CorsairSDK.new []).self
    (connect (sampleVendor 1 .CDT_Mouse fun _ => true) CorsairSDK.new []).calls []).2.2.2.2.2 rfl

/-! ## The enumeration of the devices: lemmas -/

theorem infoCalls_succ (n : Nat) :
    infoCalls (n + 1) = infoCalls n ++ [VendorCall.CorsairGetDeviceInfo (n : Int)] := by
  simp [infoCalls, List.range_succ]

theorem pushDevice_listOf (ls : DeviceLists) (t : CorsairDeviceType) (d : Device)
    (c : DeviceType) (hc : c ∈ handlerCategories) :
    (pushDevice ls t d).listOf c =
      ls.listOf c ++ if placement t = some c then [d] else [] := by
  simp only [handlerCategories, List.mem_cons, List.mem_singleton, List.mem_nil_iff,
    or_false] at hc
  rcases hc with rfl | rfl | rfl | rfl | rfl | rfl | rfl | rfl | rfl | rfl <;>
    cases t <;> simp [pushDevice, DeviceLists.listOf, placement]

/-- The loop of `setAllDeviceInfo` pushes the records of the indices from `i`
on, each under the type reported for it. -/
theorem enumerateDevices_eq (sdk : Vendor) (h0 : List VendorCall) (todo : Nat) :
    ∀ (i : Nat) (ls : DeviceLists),
      enumerateDevices sdk todo (i : Int) (ls, h0 ++ infoCalls i) =
        ((List.range' i todo).foldl (fun acc k => pushDevice acc (reportedInfo sdk h0 k).type
            (recordOf (reportedInfo sdk h0 k) k)) ls,
          h0 ++ infoCalls (i + todo)) := by
  induction todo with
  | zero =>
    intro i ls
    simp [enumerateDevices]
  | succ n ih =>
    intro i ls
    have hcalls : h0 ++ infoCalls i ++ [VendorCall.CorsairGetDeviceInfo (i : Int)] =
        h0 ++ infoCalls (i + 1) := by
      rw [infoCalls_succ, List.append_assoc]
    have hcast : ((i : Int) + 1) = ((i + 1 : Nat) : Int) := by push_cast; rfl
    simp only [enumerateDevices, hcalls, hcast]
    rw [ih (i + 1)]
    simp only [List.range'_succ, List.foldl_cons, reportedInfo, recordOf]
    rw [show i + 1 + n = i + (n + 1) by omega]

theorem foldl_pushDevice_listOf (ty : Nat → CorsairDeviceType) (rec : Nat → Device)
    (c : DeviceType) (hc : c ∈ handlerCategories) (l : List Nat) :
    ∀ ls : DeviceLists,
      (l.foldl (fun acc k => pushDevice acc (ty k) (rec k)) ls).listOf c =
        ls.listOf c ++ (l.filter fun k => placement (ty k) = some c).map rec := by
  induction l with
  | nil => intro ls; simp
  | cons k ks ih =>
    intro ls
    rw [List.foldl_cons, ih, pushDevice_listOf _ _ _ c hc]
    by_cases hk : placement (ty k) = some c
    · simp [hk, List.filter_cons]
    · simp [hk, List.filter_cons]

theorem devicesAt_insert (m : List (DeviceType × List Device)) (k c : DeviceType)
    (v : List Device) :
    devicesAt (devicesInsert m k v) c =
      match devicesAt m c with
      | some l => some l
      | none => if k = c then some v else none := by
  have happ : ∀ m : List (DeviceType × List Device), devicesAt (m ++ [(k, v)]) c =
      match devicesAt m c with
      | some l => some l
      | none => if k = c then some v else none := by
    intro m
    induction m with
    | nil => simp [devicesAt]
    | cons p ps ih =>
      obtain ⟨pk, pv⟩ := p
      by_cases hp : pk = c
      · simp [devicesAt, hp]
      · simp [devicesAt, hp, ih]
  unfold devicesInsert
  cases hk : devicesAt m k with
  | none => exact happ m
  | some old =>
    cases hc : devicesAt m c with
    | some l => rfl
    | none =>
      have hne : k ≠ c := by
        intro hkc
        rw [hkc, hc] at hk
        exact absurd hk (by simp)
      simp [hne]

theorem enumerateDevices_listOf (sdk : Vendor) (h0 : List VendorCall) (n : Nat)
    (c : DeviceType) (hc : c ∈ handlerCategories) :
    (enumerateDevices sdk n 0 (DeviceLists.empty, h0)).1.listOf c = enumerated sdk h0 n c := by
  have h := enumerateDevices_eq sdk h0 n 0 DeviceLists.empty
  have hnil : h0 ++ infoCalls 0 = h0 := by simp [infoCalls]
  rw [hnil] at h
  have hzero : ((0 : Nat) : Int) = 0 := rfl
  rw [hzero] at h
  rw [h]
  simp only
  rw [foldl_pushDevice_listOf (fun k => (reportedInfo sdk h0 k).type)
    (fun k => recordOf (reportedInfo sdk h0 k) k) c hc]
  have hempty : DeviceLists.empty.listOf c = [] := by
    cases c <;> rfl
  rw [hempty, List.nil_append, ← List.range_eq_range']
  rfl

/-- The device map after `setAllDeviceInfo`: a key that had a list keeps it, and
each of the ten keys without one gets the list of the enumeration. -/
theorem setAllDeviceInfo_devicesAt (sdk : Vendor) (s : CorsairSDK) (h : List VendorCall)
    (c : DeviceType) :
    devicesAt (setAllDeviceInfo sdk s h).1.devices c =
      match devicesAt s.devices c with
      | some l => some l
      | none =>
        if c ∈ handlerCategories then
          some (enumerated sdk (h ++ [.CorsairGetDeviceCount])
            (sdk.deviceCount (h ++ [.CorsairGetDeviceCount])).toNat c)
        else none := by
  unfold setAllDeviceInfo
  simp only [devicesAt_insert]
  cases hd : devicesAt s.devices c with
  | some l => rfl
  | none =>
    by_cases hc : c ∈ handlerCategories
    · rw [if_pos hc, ← enumerateDevices_listOf sdk _ _ c hc]
      simp only [handlerCategories, List.mem_cons, List.mem_singleton, List.mem_nil_iff,
        or_false] at hc
      rcases hc with rfl | rfl | rfl | rfl | rfl | rfl | rfl | rfl | rfl | rfl <;>
        simp [DeviceLists.listOf]
    · rw [if_neg hc]
      cases c <;> first | rfl | exact absurd (by decide) hc

theorem setAllDeviceInfo_flag (sdk : Vendor) (s : CorsairSDK) (h : List VendorCall) :
    (setAllDeviceInfo sdk s h).1.isConnected = s.isConnected := rfl

/-- A `connect` that returns was made on a session that was not connected, after
a handshake without error and with control granted. -/
theorem connect_ok_inv (sdk : Vendor) (s : CorsairSDK) (h : List VendorCall)
    (hok : (connect sdk s h).result = .ok ()) :
    s.isConnected = false ∧
      sdk.lastError (h ++ [.CorsairPerformProtocolHandshake, .CorsairGetLastError]) =
        .CE_Success ∧
      sdk.boolResult (h ++ [.CorsairPerformProtocolHandshake, .CorsairGetLastError,
        .CorsairRequestControl]) = true := by
  cases hs : s.isConnected with
  | true =>
    unfold connect at hok
    rw [if_pos hs] at hok
    simp at hok
  | false =>
    by_cases he : sdk.lastError (h ++ [.CorsairPerformProtocolHandshake,
        .CorsairGetLastError]) = .CE_Success
    · cases hb : sdk.boolResult (h ++ [.CorsairPerformProtocolHandshake,
          .CorsairGetLastError, .CorsairRequestControl]) with
      | false =>
        rw [connect_denied sdk s h hs he hb] at hok
        simp at hok
      | true => exact ⟨rfl, he, rfl⟩
    · rw [connect_handshake_error sdk s h hs he] at hok
      simp at hok

/-- The device map after a `connect` that returns. -/
theorem connect_ok_registry (sdk : Vendor) (s : CorsairSDK) (h : List VendorCall)
    (hok : (connect sdk s h).result = .ok ()) (c : DeviceType) :
    (connect sdk s h).self.isConnected = true ∧
    devicesAt (connect sdk s h).self.devices c =
      match devicesAt s.devices c with
      | some l => some l
      | none =>
        if c ∈ handlerCategories then
          some (enumerated sdk (enumStart h) (sdk.deviceCount (enumStart h)).toNat c)
        else none := by
  obtain ⟨hs, he, hb⟩ := connect_ok_inv sdk s h hok
  rw [connect_granted sdk s h hs he hb]
  refine ⟨rfl, ?_⟩
  simp only [setAllDeviceInfo_devicesAt, enumStart, List.append_assoc, List.cons_append,
    List.nil_append]

theorem enumerated_indices (sdk : Vendor) (h0 : List VendorCall) (n : Nat) (c : DeviceType) :
    (enumerated sdk h0 n c).map (fun d => d.deviceIndex) =
      ((List.range n).filter fun k => placement (reportedInfo sdk h0 k).type = some c).map
        Int.ofNat := by
  unfold enumerated
  rw [List.map_map]
  rfl

theorem placement_known (t : CorsairDeviceType) (c : DeviceType)
    (ht : ∀ code, t ≠ .unnamed code) : placement t = some c ↔ categoryOf t = c := by
  cases t <;> simp [placement, categoryOf] at ht ⊢

/-! ## The registry: the claims -/

/-- C14: on the session as constructed, a `connect` whose handshake reports
success and whose control request is granted, with every enumerated device of a
vendor type that the source names, returns and leaves the session connected; for
each of the ten keys of the device map, the list under the key holds, in
ascending order, exactly the indices below the device count whose reported type
is classified to the key; a device count of zero or less gives ten empty
lists. -/
theorem connect_populates (sdk : Vendor) (h : List VendorCall)
    (hhs : sdk.lastError (h ++ [.CorsairPerformProtocolHandshake, .CorsairGetLastError]) =
      .CE_Success)
    (hctl : sdk.boolResult (h ++ [.CorsairPerformProtocolHandshake, .CorsairGetLastError,
      .CorsairRequestControl]) = true)
    (hknown : ∀ i, i < (sdk.deviceCount (enumStart h)).toNat →
      ∀ code, (reportedInfo sdk (enumStart h) i).type ≠ .unnamed code) :
    (connect sdk CorsairSDK.new h).result = .ok () ∧
    (connect sdk CorsairSDK.new h).self.isConnected = true ∧
    (∀ c ∈ handlerCategories, ∃ l,
      devicesAt (connect sdk CorsairSDK.new h).self.devices c = some l ∧
      l.map (fun d => d.deviceIndex) =
        ((List.range (sdk.deviceCount (enumStart h)).toNat).filter fun i =>
          categoryOf (reportedInfo sdk (enumStart h) i).type = c).map Int.ofNat) ∧
    (sdk.deviceCount (enumStart h) ≤ 0 → ∀ c ∈ handlerCategories,
      devicesAt (connect sdk CorsairSDK.new h).self.devices c = some []) := by
  have hok : (connect sdk CorsairSDK.new h).result = .ok () := by
    rw [connect_granted sdk CorsairSDK.new h rfl hhs hctl]
  have hreg : ∀ c ∈ handlerCategories,
      devicesAt (connect sdk CorsairSDK.new h).self.devices c =
        some (enumerated sdk (enumStart h) (sdk.deviceCount (enumStart h)).toNat c) := by
    intro c hc
    rw [(connect_ok_registry sdk CorsairSDK.new h hok c).2]
    simp [CorsairSDK.new, devicesAt, hc]
  refine ⟨hok, (connect_ok_registry sdk CorsairSDK.new h hok .Mouse).1, ?_, ?_⟩
  · intro c hc
    refine ⟨_, hreg c hc, ?_⟩
    rw [enumerated_indices]
    congr 1
    apply List.filter_congr
    intro i hi
    have hlt : i < (sdk.deviceCount (enumStart h)).toNat := List.mem_range.mp hi
    have hiff := placement_known (reportedInfo sdk (enumStart h) i).type c (hknown i hlt)
    by_cases hp : placement (reportedInfo sdk (enumStart h) i).type = some c
    · simp [hp, hiff.mp hp]
    · have hq : ¬ categoryOf (reportedInfo sdk (enumStart h) i).type = c :=
        fun hcat => hp (hiff.mpr hcat)
      simp [hp, hq]
  · intro hcount c hc
    rw [hreg c hc]
    have hz : (sdk.deviceCount (enumStart h)).toNat = 0 := by omega
    rw [hz]
    rfl

theorem connect_populates_witness :
    (connect (sampleVendor 2 .CDT_Keyboard fun _ => true) CorsairSDK.new []).result = .ok () ∧
    (connect (sampleVendor 2 .CDT_Keyboard fun _ => true) CorsairSDK.new []).self =
      sampleSession [] [sampleDevice .Keyboard 0, sampleDevice .Keyboard 1] [] :=
  ⟨(connect_populates (sampleVendor 2 .CDT_Keyboard fun _ => true) [] rfl rfl
    (fun _ _ _ hcode => by cases hcode)).1, rfl⟩

/-- C15, the code at the failing input: the session as constructed, and a vendor
library that reports one mouse to the first `connect` and one keyboard to the
second.  `connect`, `disconnect` and `connect` all return; the second
enumeration reports a keyboard, and the device map that `getDevices` returns
after it is the one of the first `connect`: the mouse under `Mouse` and no
keyboard under `Keyboard`. -/
theorem reconnect_failing_input :
    (connect replugVendor CorsairSDK.new []).result = .ok () ∧
    (disconnect replugVendor (connect replugVendor CorsairSDK.new []).self
      (connect replugVendor CorsairSDK.new []).calls).result = .ok () ∧
    (connect replugVendor
      (disconnect replugVendor (connect replugVendor CorsairSDK.new []).self
        (connect replugVendor CorsairSDK.new []).calls).self
      (disconnect replugVendor (connect replugVendor CorsairSDK.new []).self
        (connect replugVendor CorsairSDK.new []).calls).calls).result = .ok () ∧
    (reportedInfo replugVendor (enumStart
      (disconnect replugVendor (connect replugVendor CorsairSDK.new []).self
        (connect replugVendor CorsairSDK.new []).calls).calls) 0).type = .CDT_Keyboard ∧
    (getDevices (connect replugVendor
      (disconnect replugVendor (connect replugVendor CorsairSDK.new []).self
        (connect replugVendor CorsairSDK.new []).calls).self
      (disconnect replugVendor (connect replugVendor CorsairSDK.new []).self
        (connect replugVendor CorsairSDK.new []).calls).calls).self []).result =
      .ok (sampleSession [sampleDevice .Mouse 0] [] []).devices :=
  ⟨rfl, rfl, rfl, rfl, rfl⟩

/-- C18, the code at the failing input: the session as constructed, and a vendor
library that reports one device whose type code is none of those the source
names.  `translateDeviceType` classifies the type as `ETC`, but the `switch` of
`setAllDeviceInfo` has no `default`: `connect` returns and the ten lists of the
device map are empty, so the device of index 0 is in no list. -/
theorem unnamed_type_failing_input :
    (connect (sampleVendor 1 (.unnamed 12) fun _ => true) CorsairSDK.new []).result = .ok () ∧
    translateDeviceType (.unnamed 12) = .ETC ∧
    (connect (sampleVendor 1 (.unnamed 12) fun _ => true) CorsairSDK.new []).self =
      sampleSession [] [] [] ∧
    (connect (sampleVendor 1 (.unnamed 12) fun _ => true) CorsairSDK.new []).self.devices.map
      (fun p => p.2) = List.replicate 10 [] :=
  ⟨rfl, rfl, rfl, rfl⟩

/-- C19, as amended: `translateDeviceType` has a value for every vendor type; a
type code that the source does not name is classified as `ETC`, and the unknown
type of the vendor as `UnknownDevice`, a device of which `setAllDeviceInfo`
pushes on the list of `ETC`. -/
theorem translate_unknown :
    (∀ code, translateDeviceType (.unnamed code) = .ETC) ∧
    translateDeviceType .CDT_Unknown = .UnknownDevice ∧
    (∀ ls d, (pushDevice ls .CDT_Unknown d).ETCList = ls.ETCList ++ [d]) :=
  ⟨fun _ => rfl, rfl, fun _ _ => rfl⟩

/-- C19, as stated, fails: the unknown type of the vendor is not classified as
`ETC`, the category of the type codes that the source does not name. -/
theorem translate_unknown_counterexample :
    ¬ (∀ t, (t = .CDT_Unknown ∨ ∃ code, t = .unnamed code) → translateDeviceType t = .ETC) := by
  intro hall
  have h := hall .CDT_Unknown (Or.inl rfl)
  exact absurd h (by decide)

/-- C20, as amended: after a `connect` that returns, the device map holds a list
for each of the ten categories Mouse, Headset, Keyboard, Mousemat, HeadsetStand,
GPU, Mainboard, Cooler, ETC and RAM; when the map held no list for the category
before, as on a first `connect`, that list is empty if no enumerated device was
pushed on it.  `connect` adds no list for `Microphone`, `UnknownDevice` or
`ALL`. -/
theorem registry_keys (sdk : Vendor) (s : CorsairSDK) (h : List VendorCall)
    (hok : (connect sdk s h).result = .ok ()) :
    (∀ c ∈ handlerCategories, ∃ l, devicesAt (connect sdk s h).self.devices c = some l ∧
      (devicesAt s.devices c = none →
        (∀ i, i < (sdk.deviceCount (enumStart h)).toNat →
          placement (reportedInfo sdk (enumStart h) i).type ≠ some c) → l = [])) ∧
    (∀ c, c ∉ handlerCategories → devicesAt s.devices c = none →
      devicesAt (connect sdk s h).self.devices c = none) := by
  constructor
  · intro c hc
    have hreg := (connect_ok_registry sdk s h hok c).2
    cases hd : devicesAt s.devices c with
    | some l0 =>
      rw [hd] at hreg
      exact ⟨l0, hreg, fun hnone => by simp at hnone⟩
    | none =>
      rw [hd] at hreg
      simp only [hc, if_true] at hreg
      refine ⟨_, hreg, fun _ hno => ?_⟩
      unfold enumerated
      rw [List.map_eq_nil_iff, List.filter_eq_nil_iff]
      intro i hi
      simpa using hno i (List.mem_range.mp hi)
  · intro c hc hd
    rw [(connect_ok_registry sdk s h hok c).2, hd]
    simp [hc]

theorem registry_keys_witness :
    (∀ c ∈ handlerCategories, ∃ l,
      devicesAt (connect (sampleVendor 1 .CDT_Mouse fun _ => true) CorsairSDK.new
        []).self.devices c = some l ∧
      (devicesAt CorsairSDK.new.devices c = none →
        (∀ i, i < ((sampleVendor 1 .CDT_Mouse fun _ => true).deviceCount (enumStart [])).toNat →
          placement (reportedInfo (sampleVendor 1 .CDT_Mouse fun _ => true) (enumStart [])
            i).type ≠ some c) → l = [])) ∧
    devicesAt (connect (sampleVendor 1 .CDT_Mouse fun _ => true) CorsairSDK.new
      []).self.devices .Keyboard = some [] :=
  ⟨(registry_keys (sampleVendor 1 .CDT_Mouse fun _ => true) CorsairSDK.new [] rfl).1, rfl⟩

/-- C20, as stated, fails on `Microphone`: after a `connect` of the session as
constructed that returns, the device map holds no list under that key. -/
theorem registry_keys_counterexample :
    (connect (sampleVendor 1 .CDT_Mouse fun _ => true) CorsairSDK.new []).result = .ok () ∧
    DeviceType.Microphone ≠ DeviceType.ALL ∧
    devicesAt (connect (sampleVendor 1 .CDT_Mouse fun _ => true) CorsairSDK.new
      []).self.devices .Microphone = none :=
  ⟨rfl, by decide, rfl⟩

/-! ## The session is left as it is: lemmas -/

theorem fanOutFrom_self (ids : LedIdNames) (sdk : Vendor) (s : CorsairSDK) (r g b : Int)
    (cs : List DeviceType) (hcs : ∀ c ∈ cs, c ≠ .ALL) :
    ∀ (k : Nat) (h : List VendorCall), (fanOutFrom ids sdk r g b cs k s h).self = s := by
  induction cs with
  | nil =>
    intro k h
    simp only [fanOutFrom]
    split_ifs <;> rfl
  | cons c cs ih =>
    intro k h
    have hc : c ≠ .ALL := hcs c (List.mem_cons_self c cs)
    obtain ⟨hself, _⟩ := handlerOf_returns ids sdk s h c r g b hc
    simp only [fanOutFrom]
    cases hx : (handlerOf ids c sdk s h r g b).result with
    | error e =>
      rw [addResult_error _ _ _ e hx]
      exact hself
    | ok v =>
      rw [addResult_ok _ _ _ v hx, hself]
      exact ih (fun d hd => hcs d (List.mem_cons_of_mem c hd)) _ _

theorem handlerOf_self (ids : LedIdNames) (sdk : Vendor) (s : CorsairSDK) (h : List VendorCall)
    (c : DeviceType) (r g b : Int) : (handlerOf ids c sdk s h r g b).self = s := by
  by_cases hc : c = .ALL
  · subst hc
    exact fanOutFrom_self ids sdk s r g b fanOut (by decide) 0 h
  · exact (handlerOf_returns ids sdk s h c r g b hc).1

theorem setRGB_self (ids : LedIdNames) (sdk : Vendor) (s : CorsairSDK) (h : List VendorCall)
    (c : DeviceType) (r g b : Int) : (setRGB ids sdk s h c r g b).self = s := by
  by_cases hs : s.isConnected = true
  · by_cases hr : InRange r g b
    · rw [setRGB_eq ids sdk s h c r g b hs hr]
      exact handlerOf_self ids sdk s h c r g b
    · have hn := fun hh => hr ((inRange_iff r g b).mp hh)
      unfold setRGB
      rw [if_pos hs, if_neg hn]
  · unfold setRGB
    rw [if_neg hs]

theorem connect_error_self (sdk : Vendor) (s : CorsairSDK) (h : List VendorCall)
    (herr : (connect sdk s h).result ≠ .ok ()) : (connect sdk s h).self = s := by
  cases hs : s.isConnected with
  | true =>
    unfold connect
    rw [if_pos hs]
  | false =>
    by_cases he : sdk.lastError (h ++ [.CorsairPerformProtocolHandshake,
        .CorsairGetLastError]) = .CE_Success
    · cases hb : sdk.boolResult (h ++ [.CorsairPerformProtocolHandshake,
          .CorsairGetLastError, .CorsairRequestControl]) with
      | false => rw [connect_denied sdk s h hs he hb]
      | true =>
        rw [connect_granted sdk s h hs he hb] at herr
        exact absurd rfl herr
    · rw [connect_handshake_error sdk s h hs he]

theorem disconnect_devices (sdk : Vendor) (s : CorsairSDK) (h : List VendorCall) :
    (disconnect sdk s h).self.devices = s.devices ∧
      ((disconnect sdk s h).self.isConnected = true → s.isConnected = true) := by
  cases hs : s.isConnected with
  | false =>
    rw [disconnect_not_connected sdk s h hs]
    exact ⟨rfl, fun hh => by rw [hs] at hh; exact hh⟩
  | true =>
    by_cases he : sdk.lastError (h ++ [.CorsairReleaseControl, .CorsairGetLastError]) =
        .CE_Success
    · rw [disconnect_ok sdk s h hs he]
      exact ⟨rfl, fun _ => rfl⟩
    · rw [disconnect_error sdk s h hs he]
      exact ⟨rfl, fun _ => rfl⟩

theorem getDevices_self (s : CorsairSDK) (h : List VendorCall) : (getDevices s h).self = s := by
  unfold getDevices
  cases hs : s.isConnected <;> simp

/-- Every reachable session is registered. -/
theorem reachable_registered (s : CorsairSDK) (hreach : Reachable s) : Registered s := by
  induction hreach with
  | fresh => exact Or.inl ⟨rfl, rfl⟩
  | connect sdk h s _ ih =>
    by_cases hok : (connect sdk s h).result = .ok ()
    · right
      rcases ih with ⟨_, hnil⟩ | ⟨sdk0, h0, n, hreg⟩
      · refine ⟨sdk, enumStart h, (sdk.deviceCount (enumStart h)).toNat, fun c => ?_⟩
        rw [(connect_ok_registry sdk s h hok c).2, hnil]
        rfl
      · refine ⟨sdk0, h0, n, fun c => ?_⟩
        rw [(connect_ok_registry sdk s h hok c).2, hreg c]
        by_cases hc : c ∈ handlerCategories
        · simp [hc]
        · simp [hc]
    · rw [connect_error_self sdk s h hok]
      exact ih
  | disconnect sdk h s _ ih =>
    obtain ⟨hdev, hflag⟩ := disconnect_devices sdk s h
    rcases ih with ⟨hoff, hnil⟩ | hreg
    · left
      refine ⟨?_, by rw [hdev, hnil]⟩
      cases hf : (disconnect sdk s h).self.isConnected with
      | false => rfl
      | true =>
        have := hflag hf
        rw [hoff] at this
        exact absurd this (by decide)
    · right
      obtain ⟨sdk0, h0, n, hreg⟩ := hreg
      exact ⟨sdk0, h0, n, fun c => by rw [hdev]; exact hreg c⟩
  | setRGB ids sdk h c r g b s _ ih =>
    rw [setRGB_self]
    exact ih
  | getDevices h s _ ih =>
    rw [getDevices_self]
    exact ih

/-- On a reachable session that is connected, each of the ten keys has a list. -/
theorem reachable_keys (s : CorsairSDK) (hreach : Reachable s) (hs : s.isConnected = true)
    (c : DeviceType) (hc : c ∈ handlerCategories) : ∃ l, devicesAt s.devices c = some l := by
  rcases reachable_registered s hreach with ⟨hoff, _⟩ | ⟨sdk0, h0, n, hreg⟩
  · rw [hoff] at hs
    exact absurd hs (by decide)
  · exact ⟨_, by rw [hreg c, if_pos hc]⟩

/-! ## The outcomes of `setRGB` -/

theorem keyOf_mem (c : DeviceType) (hc : c ≠ .ALL) : keyOf c ∈ handlerCategories := by
  cases c <;> first | exact absurd rfl hc | decide

theorem outcomeOf_cases (S N : Nat) :
    outcomeOf S N = .ok 1 ∨ outcomeOf S N = .error SDKException.SomeRGBFailed ∨
      outcomeOf S N = .error SDKException.AllRGBFailed := by
  unfold outcomeOf
  split_ifs <;> simp

theorem handlerOf_cases (ids : LedIdNames) (sdk : Vendor) (s : CorsairSDK)
    (h : List VendorCall) (c : DeviceType) (r g b : Int) (hc : c ≠ .ALL) (devs : List Device)
    (hd : devicesAt s.devices (keyOf c) = some devs) :
    (handlerOf ids c sdk s h r g b).result = .ok 1 ∨
      (handlerOf ids c sdk s h r g b).result = .error SDKException.SomeRGBFailed ∨
      (handlerOf ids c sdk s h r g b).result = .error SDKException.AllRGBFailed := by
  rw [handlerOf_sweep ids sdk s h c r g b devs hc hd]
  exact outcomeOf_cases _ _

theorem fanOutFrom_cases (ids : LedIdNames) (sdk : Vendor) (s : CorsairSDK) (r g b : Int)
    (hkeys : ∀ c ∈ handlerCategories, ∃ l, devicesAt s.devices c = some l)
    (cs : List DeviceType) (hcs : ∀ c ∈ cs, c ≠ .ALL) :
    ∀ (k : Nat) (h : List VendorCall),
      (fanOutFrom ids sdk r g b cs k s h).result = .ok 1 ∨
        (fanOutFrom ids sdk r g b cs k s h).result = .error SDKException.SomeRGBFailed ∨
        (fanOutFrom ids sdk r g b cs k s h).result = .error SDKException.AllRGBFailed := by
  induction cs with
  | nil =>
    intro k h
    simp only [fanOutFrom]
    split_ifs <;> simp
  | cons c cs ih =>
    intro k h
    have hc : c ≠ .ALL := hcs c (List.mem_cons_self c cs)
    obtain ⟨devs, hd⟩ := hkeys (keyOf c) (keyOf_mem c hc)
    obtain ⟨hself, _⟩ := handlerOf_returns ids sdk s h c r g b hc
    simp only [fanOutFrom]
    rcases handlerOf_cases ids sdk s h c r g b hc devs hd with hx | hx | hx
    · rw [addResult_ok _ _ _ 1 hx, hself]
      exact ih (fun d hd => hcs d (List.mem_cons_of_mem c hd)) _ _
    · rw [addResult_error _ _ _ _ hx]
      exact Or.inr (Or.inl rfl)
    · rw [addResult_error _ _ _ _ hx]
      exact Or.inr (Or.inr rfl)

theorem discard_cases (x : Effect Nat)
    (hx : x.result = .ok 1 ∨ x.result = .error SDKException.SomeRGBFailed ∨
      x.result = .error SDKException.AllRGBFailed) :
    (discard x).result = .ok () ∨ (discard x).result = .error SDKException.SomeRGBFailed ∨
      (discard x).result = .error SDKException.AllRGBFailed := by
  rcases hx with hx | hx | hx
  · exact Or.inl ((discard_ok x).mpr ⟨1, hx⟩)
  · exact Or.inr (Or.inl ((discard_error x _).mpr hx))
  · exact Or.inr (Or.inr ((discard_error x _).mpr hx))

/-- C21: in every state that `connect`, `disconnect`, `setRGB` and `getDevices`
reach from the session as constructed, for every category and all r, g, b,
`setRGB` returns or throws one of `SDKNotConnected`, `InvalidRGBValue`,
`SomeRGBFailed` and `AllRGBFailed`; it throws neither `InvalidDeviceType` nor the
`std::out_of_range` of a missing list, because a connected session has a list
under each of the ten keys that the handlers look up. -/
theorem setRGB_outcomes (s : CorsairSDK) (hreach : Reachable s) (ids : LedIdNames)
    (sdk : Vendor) (h : List VendorCall) (c : DeviceType) (r g b : Int) :
    ((setRGB ids sdk s h c r g b).result = .ok () ∨
      (setRGB ids sdk s h c r g b).result = .error SDKException.SDKNotConnected ∨
      (setRGB ids sdk s h c r g b).result = .error SDKException.InvalidRGBValue ∨
      (setRGB ids sdk s h c r g b).result = .error SDKException.SomeRGBFailed ∨
      (setRGB ids sdk s h c r g b).result = .error SDKException.AllRGBFailed) ∧
    (setRGB ids sdk s h c r g b).result ≠ .error SDKException.InvalidDeviceType ∧
    (setRGB ids sdk s h c r g b).result ≠ .error SDKException.OutOfRange ∧
    (s.isConnected = true → ∀ k ∈ handlerCategories, ∃ l, devicesAt s.devices k = some l) := by
  have hkeys : s.isConnected = true →
      ∀ k ∈ handlerCategories, ∃ l, devicesAt s.devices k = some l :=
    fun hs k hk => reachable_keys s hreach hs k hk
  have hmain : (setRGB ids sdk s h c r g b).result = .ok () ∨
      (setRGB ids sdk s h c r g b).result = .error SDKException.SDKNotConnected ∨
      (setRGB ids sdk s h c r g b).result = .error SDKException.InvalidRGBValue ∨
      (setRGB ids sdk s h c r g b).result = .error SDKException.SomeRGBFailed ∨
      (setRGB ids sdk s h c r g b).result = .error SDKException.AllRGBFailed := by
    by_cases hs : s.isConnected = true
    · by_cases hr : InRange r g b
      · rw [setRGB_eq ids sdk s h c r g b hs hr]
        have hx : (handlerOf ids c sdk s h r g b).result = .ok 1 ∨
            (handlerOf ids c sdk s h r g b).result = .error SDKException.SomeRGBFailed ∨
            (handlerOf ids c sdk s h r g b).result = .error SDKException.AllRGBFailed := by
          by_cases hc : c = .ALL
          · subst hc
            exact fanOutFrom_cases ids sdk s r g b (hkeys hs) fanOut (by decide) 0 h
          · obtain ⟨devs, hd⟩ := hkeys hs (keyOf c) (keyOf_mem c hc)
            exact handlerOf_cases ids sdk s h c r g b hc devs hd
        rcases discard_cases _ hx with h1 | h1 | h1
        · exact Or.inl h1
        · exact Or.inr (Or.inr (Or.inr (Or.inl h1)))
        · exact Or.inr (Or.inr (Or.inr (Or.inr h1)))
      · have hn := fun hh => hr ((inRange_iff r g b).mp hh)
        right; right; left
        unfold setRGB
        rw [if_pos hs, if_neg hn]
    · right; left
      unfold setRGB
      rw [if_neg hs]
  refine ⟨hmain, ?_, ?_, hkeys⟩
  · rcases hmain with h1 | h1 | h1 | h1 | h1 <;> rw [h1] <;> simp
  · rcases hmain with h1 | h1 | h1 | h1 | h1 <;> rw [h1] <;> simp

theorem setRGB_outcomes_witness :
    (setRGB sampleNames (sampleVendor 1 .CDT_Mouse fun k => decide (k ≤ 6))
        (connect (sampleVendor 1 .CDT_Mouse fun k => decide (k ≤ 6)) CorsairSDK.new []).self
        (connect (sampleVendor 1 .CDT_Mouse fun k => decide (k ≤ 6)) CorsairSDK.new []).calls
        .Microphone 1 2 3).result ≠ .error SDKException.OutOfRange ∧
    (setRGB sampleNames (sampleVendor 1 .CDT_Mouse fun k => decide (k ≤ 6))
        (connect (sampleVendor 1 .CDT_Mouse fun k => decide (k ≤ 6)) CorsairSDK.new []).self
        (connect (sampleVendor 1 .CDT_Mouse fun k => decide (k ≤ 6)) CorsairSDK.new []).calls
        .Microphone 1 2 3).result = .ok () :=
  ⟨(setRGB_outcomes _ (Reachable.connect (sampleVendor 1 .CDT_Mouse fun k => decide (k ≤ 6)) []
      CorsairSDK.new Reachable.fresh) sampleNames
      (sampleVendor 1 .CDT_Mouse fun k => decide (k ≤ 6))
      (connect (sampleVendor 1 .CDT_Mouse fun k => decide (k ≤ 6)) CorsairSDK.new []).calls
      .Microphone 1 2 3).2.2.1, rfl⟩

/-! ## The calls of the fan-out -/

theorem mem_sweepCalls_cases (ids : LedIdNames) (c : DeviceType) (r g b : Int)
    (devs : List Device) (call : VendorCall) (hcall : call ∈ sweepCalls ids c r g b devs) :
    call = VendorCall.CorsairSetLedsColorsFlushBuffer ∨ ∃ d ∈ devs, call = writeTo ids c r g b d := by
  simp only [sweepCalls, List.mem_append, List.mem_map, List.mem_singleton] at hcall
  rcases hcall with ⟨d, hd, rfl⟩ | rfl
  · exact Or.inr ⟨d, hd, rfl⟩
  · exact Or.inl rfl

/-- The calls of the fan-out are flushes and writes of the categories left to
the devices of their lists. -/
theorem fanOutFrom_calls (ids : LedIdNames) (sdk : Vendor) (s : CorsairSDK) (r g b : Int)
    (cs : List DeviceType) (hcs : ∀ c ∈ cs, c ≠ .ALL) :
    ∀ (k : Nat) (h : List VendorCall), ∃ extra,
      (fanOutFrom ids sdk r g b cs k s h).calls = h ++ extra ∧
      ∀ call ∈ extra, call = VendorCall.CorsairSetLedsColorsFlushBuffer ∨
        ∃ c ∈ cs, ∃ devs, devicesAt s.devices (keyOf c) = some devs ∧
          ∃ d ∈ devs, call = writeTo ids c r g b d := by
  induction cs with
  | nil =>
    intro k h
    refine ⟨[], ?_, by simp⟩
    simp only [fanOutFrom, List.append_nil]
    split_ifs <;> rfl
  | cons c cs ih =>
    intro k h
    have hc : c ≠ .ALL := hcs c (List.mem_cons_self c cs)
    have ih2 := ih (fun d hd => hcs d (List.mem_cons_of_mem c hd))
    simp only [fanOutFrom]
    cases hd : devicesAt s.devices (keyOf c) with
    | none =>
      have hx : (handlerOf ids c sdk s h r g b).result = .error SDKException.OutOfRange := by
        rw [handlerOf_missing ids sdk s h c r g b hc hd]
      rw [addResult_error _ _ _ _ hx, handlerOf_missing ids sdk s h c r g b hc hd]
      exact ⟨[], by simp, by simp⟩
    | some devs =>
      have hsw := handlerOf_sweep ids sdk s h c r g b devs hc hd
      have hin : ∀ call ∈ sweepCalls ids c r g b devs,
          call = VendorCall.CorsairSetLedsColorsFlushBuffer ∨
            ∃ c2 ∈ c :: cs, ∃ devs2, devicesAt s.devices (keyOf c2) = some devs2 ∧
              ∃ d ∈ devs2, call = writeTo ids c2 r g b d := by
        intro call hcall
        rcases mem_sweepCalls_cases ids c r g b devs call hcall with h1 | ⟨d, hd1, hd2⟩
        · exact Or.inl h1
        · exact Or.inr ⟨c, List.mem_cons_self c cs, devs, hd, d, hd1, hd2⟩
      cases hx : (handlerOf ids c sdk s h r g b).result with
      | error e =>
        rw [addResult_error _ _ _ e hx, hsw]
        exact ⟨sweepCalls ids c r g b devs, rfl, hin⟩
      | ok v =>
        rw [addResult_ok _ _ _ v hx, hsw]
        obtain ⟨extra, he1, he2⟩ := ih2 (k + v) (h ++ sweepCalls ids c r g b devs)
        refine ⟨sweepCalls ids c r g b devs ++ extra, ?_, ?_⟩
        · simp only
          rw [he1, List.append_assoc]
        · intro call hcall
          rcases List.mem_append.mp hcall with h1 | h1
          · exact hin call h1
          · rcases he2 call h1 with h2 | ⟨c2, hc2, devs2, hd2, d, hd3, hd4⟩
            · exact Or.inl h2
            · exact Or.inr ⟨c2, List.mem_cons_of_mem c hc2, devs2, hd2, d, hd3, hd4⟩

/-- An index is in the list of one category only. -/
theorem enumerated_disjoint (sdk : Vendor) (h0 : List VendorCall) (n : Nat)
    (c1 c2 : DeviceType) (d1 d2 : Device) (h1 : d1 ∈ enumerated sdk h0 n c1)
    (h2 : d2 ∈ enumerated sdk h0 n c2) (hidx : d1.deviceIndex = d2.deviceIndex) : c1 = c2 := by
  simp only [enumerated, List.mem_map, List.mem_filter, decide_eq_true_eq] at h1 h2
  obtain ⟨k1, ⟨_, hp1⟩, rfl⟩ := h1
  obtain ⟨k2, ⟨_, hp2⟩, rfl⟩ := h2
  simp only [recordOf] at hidx
  have hk : k1 = k2 := by exact_mod_cast hidx
  subst hk
  rw [hp1] at hp2
  exact Option.some.inj hp2

theorem setRGB_calls_all (ids : LedIdNames) (sdk : Vendor) (s : CorsairSDK)
    (h : List VendorCall) (r g b : Int) (call : VendorCall)
    (hcall : call ∈ issuedSince h (setRGB ids sdk s h .ALL r g b).calls) :
    call = VendorCall.CorsairSetLedsColorsFlushBuffer ∨
      ∃ c ∈ fanOut, ∃ devs, devicesAt s.devices (keyOf c) = some devs ∧
        ∃ d ∈ devs, call = writeTo ids c r g b d := by
  by_cases hs : s.isConnected = true
  · by_cases hr : InRange r g b
    · rw [setRGB_eq ids sdk s h .ALL r g b hs hr] at hcall
      obtain ⟨extra, he1, he2⟩ := fanOutFrom_calls ids sdk s r g b fanOut (by decide) 0 h
      have hcalls : (discard (handlerOf ids .ALL sdk s h r g b)).calls = h ++ extra := he1
      rw [hcalls, issuedSince_append] at hcall
      exact he2 call hcall
    · have hn := fun hh => hr ((inRange_iff r g b).mp hh)
      unfold setRGB at hcall
      rw [if_pos hs, if_neg hn] at hcall
      simp [issuedSince_self] at hcall
  · unfold setRGB at hcall
    rw [if_neg hs] at hcall
    simp [issuedSince_self] at hcall

/-- C23: on a reachable session, whatever the vendor library answers, no
buffered write of a dispatch to `ALL` is addressed to the index of a device of
the Cooler list. -/
theorem all_skips_coolers (s : CorsairSDK) (hreach : Reachable s) (ids : LedIdNames)
    (sdk : Vendor) (h : List VendorCall) (r g b : Int) (coolers : List Device)
    (hcool : devicesAt s.devices .Cooler = some coolers) (idx : Int) (size : Nat)
    (leds : List CorsairLedColor)
    (hw : VendorCall.CorsairSetLedsColorsBufferByDeviceIndex idx size leds ∈
      issuedSince h (setRGB ids sdk s h .ALL r g b).calls) :
    ∀ d ∈ coolers, d.deviceIndex ≠ idx := by
  intro d hd hidx
  rcases setRGB_calls_all ids sdk s h r g b _ hw with h1 | ⟨c, hc, devs, hdevs, d2, hd2, hcall⟩
  · exact absurd h1 (by simp)
  · rcases reachable_registered s hreach with ⟨_, hnil⟩ | ⟨sdk0, h0, n, hreg⟩
    · rw [hnil] at hcool
      simp [devicesAt] at hcool
    · have hkey : keyOf c ∈ handlerCategories ∧ keyOf c ≠ .Cooler := by
        simp only [fanOut, List.mem_cons, List.mem_singleton, List.mem_nil_iff,
          or_false] at hc
        rcases hc with rfl | rfl | rfl | rfl | rfl | rfl | rfl | rfl | rfl <;>
          exact ⟨by decide, by decide⟩
      rw [hreg, if_pos hkey.1] at hdevs
      rw [hreg, if_pos (by decide)] at hcool
      have e1 := Option.some.inj hdevs
      have e2 := Option.some.inj hcool
      rw [← e1] at hd2
      rw [← e2] at hd
      have hi : d2.deviceIndex = idx := by
        unfold writeTo at hcall
        injection hcall with a1 a2 a3
        exact a1.symm
      exact hkey.2 (enumerated_disjoint sdk0 h0 n _ _ d2 d hd2 hd (by rw [hi, hidx]))

theorem all_skips_coolers_witness :
    devicesAt (connect deskVendor CorsairSDK.new []).self.devices .Cooler =
      some [sampleDevice .Cooler 1] ∧
    VendorCall.CorsairSetLedsColorsBufferByDeviceIndex 0 (layoutFor sampleNames .Mouse).length
        ((layoutFor sampleNames .Mouse).map (coloured 10 20 30)) ∈
      issuedSince (connect deskVendor CorsairSDK.new []).calls
        (setRGB sampleNames deskVendor (connect deskVendor CorsairSDK.new []).self
          (connect deskVendor CorsairSDK.new []).calls .ALL 10 20 30).calls ∧
    ∀ d ∈ [sampleDevice .Cooler 1], d.deviceIndex ≠ 0 :=
  have hmem : VendorCall.CorsairSetLedsColorsBufferByDeviceIndex 0
      (layoutFor sampleNames .Mouse).length
        ((layoutFor sampleNames .Mouse).map (coloured 10 20 30)) ∈
      issuedSince (connect deskVendor CorsairSDK.new []).calls
        (setRGB sampleNames deskVendor (connect deskVendor CorsairSDK.new []).self
          (connect deskVendor CorsairSDK.new []).calls .ALL 10 20 30).calls := by
    have hsub : issuedSince (connect deskVendor CorsairSDK.new []).calls
        (setRGB sampleNames deskVendor (connect deskVendor CorsairSDK.new []).self
          (connect deskVendor CorsairSDK.new []).calls .ALL 10 20 30).calls =
        VendorCall.CorsairSetLedsColorsBufferByDeviceIndex 0
            (layoutFor sampleNames .Mouse).length
            ((layoutFor sampleNames .Mouse).map (coloured 10 20 30)) ::
          List.replicate 9 VendorCall.CorsairSetLedsColorsFlushBuffer := rfl
    rw [hsub]
    exact List.mem_cons_self _ _
  ⟨rfl, hmem, all_skips_coolers _ (Reachable.connect deskVendor [] CorsairSDK.new
    Reachable.fresh) sampleNames deskVendor (connect deskVendor CorsairSDK.new []).calls
    10 20 30 [sampleDevice .Cooler 1] rfl 0 _ _ hmem⟩

/-! ## The session under `setRGB`, and the three names of the Unclassified handler -/

/-- C24: for every state, category, colour and vendor library, whether `setRGB`
returns or throws, the object after the call is the object before it: the
connected flag is the same, the device map is the same, and so is the list
under every key, contents and order. -/
theorem setRGB_read_only (ids : LedIdNames) (sdk : Vendor) (s : CorsairSDK)
    (h : List VendorCall) (c : DeviceType) (r g b : Int) :
    (setRGB ids sdk s h c r g b).self = s ∧
    (setRGB ids sdk s h c r g b).self.isConnected = s.isConnected ∧
    (setRGB ids sdk s h c r g b).self.devices = s.devices ∧
    ∀ k, devicesAt (setRGB ids sdk s h c r g b).self.devices k = devicesAt s.devices k := by
  rw [setRGB_self]
  exact ⟨rfl, rfl, rfl, fun _ => rfl⟩

/-- C28: for every state, colour and vendor library, `setRGB` with the category
`Microphone` and with the category `UnknownDevice` is `setRGB` with the category
`ETC`: the same result, the same object and the same calls.  On a connected
session with an accepted colour and the list `devs` under `ETC`, the calls of
each are one write per device of `devs` with the 250 entries of the ids 500 to
599 and 1544 to 1693, then one flush. -/
theorem unclassified_names (ids : LedIdNames) (sdk : Vendor) (s : CorsairSDK)
    (h : List VendorCall) (r g b : Int) (devs : List Device) (hs : s.isConnected = true)
    (hr : InRange r g b) (hd : devicesAt s.devices .ETC = some devs) :
    setRGB ids sdk s h .Microphone r g b = setRGB ids sdk s h .ETC r g b ∧
    setRGB ids sdk s h .UnknownDevice r g b = setRGB ids sdk s h .ETC r g b ∧
    (setRGB ids sdk s h .ETC r g b).calls =
      h ++ (devs.map fun d => VendorCall.CorsairSetLedsColorsBufferByDeviceIndex d.deviceIndex
          250 ((List.range' 500 100 ++ List.range' 1544 150).map (coloured r g b))) ++
        [VendorCall.CorsairSetLedsColorsFlushBuffer] := by
  refine ⟨rfl, rfl, ?_⟩
  rw [setRGB_sweep ids sdk s h .ETC r g b devs (by decide) hs hr hd, List.append_assoc]
  have hlen : (layoutFor ids .ETC).length = 250 := by simp [layoutFor]
  have hcalls : sweepCalls ids .ETC r g b devs =
      (devs.map fun d => VendorCall.CorsairSetLedsColorsBufferByDeviceIndex d.deviceIndex
        250 ((List.range' 500 100 ++ List.range' 1544 150).map (coloured r g b))) ++
        [VendorCall.CorsairSetLedsColorsFlushBuffer] := by
    unfold sweepCalls writeTo
    rw [hlen]
    rfl
  rw [← hcalls]
  rfl

theorem unclassified_names_witness :
    devicesAt (connect (sampleVendor 1 .CDT_Unknown fun _ => true) CorsairSDK.new
      []).self.devices .ETC = some [sampleDevice .UnknownDevice 0] ∧
    setRGB sampleNames (sampleVendor 1 .CDT_Unknown fun _ => false)
        (connect (sampleVendor 1 .CDT_Unknown fun _ => true) CorsairSDK.new []).self []
        .Microphone 10 20 30 =
      setRGB sampleNames (sampleVendor 1 .CDT_Unknown fun _ => false)
        (connect (sampleVendor 1 .CDT_Unknown fun _ => true) CorsairSDK.new []).self []
        .ETC 10 20 30 :=
  ⟨rfl, (unclassified_names sampleNames (sampleVendor 1 .CDT_Unknown fun _ => false)
    (connect (sampleVendor 1 .CDT_Unknown fun _ => true) CorsairSDK.new []).self [] 10 20 30
    [sampleDevice .UnknownDevice 0] rfl (by decide) rfl).1⟩

/-! ## The ids and the sizes of the buffers -/

theorem bufferOf_filled_size (ids : LedIdNames) (r g b : Int) (c : DeviceType)
    (hc : c ≠ .ALL) :
    Filled r g b (declaredSize c) (layoutFor ids c) (bufferOf ids r g b c) := by
  cases c with
  | ALL => exact absurd rfl hc
  | Mouse => exact mouse_filled ids r g b
  | Headset => exact headset_filled ids r g b
  | Keyboard => exact keyboard_filled ids r g b
  | Mousemat => exact mouseMat_filled ids r g b
  | HeadsetStand => exact headsetStand_filled ids r g b
  | GPU => exact gpu_filled ids r g b
  | Mainboard => exact motherboard_filled ids r g b
  | Cooler => exact cooler_filled ids r g b
  | RAM => exact memoryModule_filled ids r g b
  | ETC => exact etc_filled ids r g b
  | UnknownDevice => exact etc_filled ids r g b
  | Microphone => exact etc_filled ids r g b

theorem idsOf_eq (ids : LedIdNames) (r g b : Int) (c : DeviceType) (hc : c ≠ .ALL) :
    idsOf ids r g b c = layoutFor ids c := by
  obtain ⟨_, _, _, h4⟩ := bufferOf_filled_size ids r g b c hc
  unfold idsOf
  rw [h4, map_ledId_coloured]

/-- C27: for each of the ten handlers and every colour, the array has its
declared size, every id that the handler stores is in the array at the position
at which it was stored (the stores use the positions 0, 1, ... up to the final
`ledCount`, which does not exceed the size), and the entry count passed to the
vendor library is the final `ledCount`: Mouse 20 of 20, Keyboard 148 of 199,
Headset 2 of 2, Mousemat 15 of 15, HeadsetStand 9 of 9, Cooler 1050 of 1050,
RAM 12 of 12, Mainboard 100 of 100, GPU 50 of 50, ETC 250 of 250. -/
theorem buffer_bounds (ids : LedIdNames) (r g b : Int) :
    (∀ c, c ≠ .ALL →
      (bufferOf ids r g b c).1.length = declaredSize c ∧
      (bufferOf ids r g b c).2 = (layoutFor ids c).length ∧
      (bufferOf ids r g b c).2 ≤ (bufferOf ids r g b c).1.length ∧
      idsOf ids r g b c = layoutFor ids c) ∧
    [.Mouse, .Keyboard, .Headset, .Mousemat, .HeadsetStand, .Cooler, .RAM, .Mainboard, .GPU,
        .ETC].map (fun c => ((bufferOf ids r g b c).2, (bufferOf ids r g b c).1.length)) =
      [(20, 20), (148, 199), (2, 2), (15, 15), (9, 9), (1050, 1050), (12, 12), (100, 100),
        (50, 50), (250, 250)] := by
  have hall : ∀ c, c ≠ .ALL →
      (bufferOf ids r g b c).1.length = declaredSize c ∧
      (bufferOf ids r g b c).2 = (layoutFor ids c).length ∧
      (bufferOf ids r g b c).2 ≤ (bufferOf ids r g b c).1.length ∧
      idsOf ids r g b c = layoutFor ids c := by
    intro c hc
    obtain ⟨h1, h2, _, h4⟩ := bufferOf_filled_size ids r g b c hc
    refine ⟨h1, h2, ?_, idsOf_eq ids r g b c hc⟩
    have hlen := congrArg List.length h4
    rw [List.length_take, List.length_map] at hlen
    omega
  refine ⟨hall, ?_⟩
  simp only [List.map_cons, List.map_nil]
  rw [(hall .Mouse (by decide)).1, (hall .Mouse (by decide)).2.1,
    (hall .Keyboard (by decide)).1, (hall .Keyboard (by decide)).2.1,
    (hall .Headset (by decide)).1, (hall .Headset (by decide)).2.1,
    (hall .Mousemat (by decide)).1, (hall .Mousemat (by decide)).2.1,
    (hall .HeadsetStand (by decide)).1, (hall .HeadsetStand (by decide)).2.1,
    (hall .Cooler (by decide)).1, (hall .Cooler (by decide)).2.1,
    (hall .RAM (by decide)).1, (hall .RAM (by decide)).2.1,
    (hall .Mainboard (by decide)).1, (hall .Mainboard (by decide)).2.1,
    (hall .GPU (by decide)).1, (hall .GPU (by decide)).2.1,
    (hall .ETC (by decide)).1, (hall .ETC (by decide)).2.1]
  simp [layoutFor, declaredSize]

/-! ## The category recorded in a device -/

theorem placement_translate (t : CorsairDeviceType) (c : DeviceType)
    (hp : placement t = some c) :
    (t ≠ .CDT_MemoryModule → t ≠ .CDT_Unknown → translateDeviceType t = c) ∧
    (t = .CDT_Unknown → c = .ETC ∧ translateDeviceType t = .UnknownDevice) := by
  cases t <;> simp [placement, translateDeviceType] at hp ⊢ <;> first | exact hp | exact hp.symm

/-- C26, as amended: after `setAllDeviceInfo` on a device map without a list
under the key `c`, every device of the list under `c` is the record of an
enumerated index whose reported type the `switch` places under `c`; unless that
type is memory module, the `deviceType` of the record is `c`, except for a device
of the unknown type of the vendor, which is in the list of `ETC` with the
`deviceType` `UnknownDevice`. -/
theorem record_category (sdk : Vendor) (s : CorsairSDK) (h : List VendorCall)
    (c : DeviceType) (hc : c ∈ handlerCategories) (hnone : devicesAt s.devices c = none)
    (l : List Device) (hl : devicesAt (setAllDeviceInfo sdk s h).1.devices c = some l)
    (d : Device) (hd : d ∈ l) :
    ∃ k, k < (sdk.deviceCount (h ++ [.CorsairGetDeviceCount])).toNat ∧
      d = recordOf (reportedInfo sdk (h ++ [.CorsairGetDeviceCount]) k) k ∧
      placement (reportedInfo sdk (h ++ [.CorsairGetDeviceCount]) k).type = some c ∧
      ((reportedInfo sdk (h ++ [.CorsairGetDeviceCount]) k).type ≠ .CDT_MemoryModule →
        (reportedInfo sdk (h ++ [.CorsairGetDeviceCount]) k).type ≠ .CDT_Unknown →
        d.deviceType = c) ∧
      ((reportedInfo sdk (h ++ [.CorsairGetDeviceCount]) k).type = .CDT_Unknown →
        c = .ETC ∧ d.deviceType = .UnknownDevice) := by
  rw [setAllDeviceInfo_devicesAt, hnone] at hl
  simp only [hc, if_true] at hl
  have hl2 := Option.some.inj hl
  rw [← hl2] at hd
  simp only [enumerated, List.mem_map, List.mem_filter, decide_eq_true_eq,
    List.mem_range] at hd
  obtain ⟨k, ⟨hk, hp⟩, rfl⟩ := hd
  obtain ⟨h1, h2⟩ := placement_translate _ c hp
  exact ⟨k, hk, rfl, hp, h1, h2⟩

theorem record_category_witness :
    ∃ k, k < ((sampleVendor 1 .CDT_Unknown fun _ => true).deviceCount
        ([] ++ [.CorsairGetDeviceCount])).toNat ∧
      sampleDevice .UnknownDevice 0 =
        recordOf (reportedInfo (sampleVendor 1 .CDT_Unknown fun _ => true)
          ([] ++ [.CorsairGetDeviceCount]) k) k ∧
      placement (reportedInfo (sampleVendor 1 .CDT_Unknown fun _ => true)
        ([] ++ [.CorsairGetDeviceCount]) k).type = some .ETC ∧
      ((reportedInfo (sampleVendor 1 .CDT_Unknown fun _ => true)
          ([] ++ [.CorsairGetDeviceCount]) k).type ≠ .CDT_MemoryModule →
        (reportedInfo (sampleVendor 1 .CDT_Unknown fun _ => true)
          ([] ++ [.CorsairGetDeviceCount]) k).type ≠ .CDT_Unknown →
        (sampleDevice .UnknownDevice 0).deviceType = .ETC) ∧
      ((reportedInfo (sampleVendor 1 .CDT_Unknown fun _ => true)
          ([] ++ [.CorsairGetDeviceCount]) k).type = .CDT_Unknown →
        DeviceType.ETC = .ETC ∧ (sampleDevice .UnknownDevice 0).deviceType = .UnknownDevice) :=
  record_category (sampleVendor 1 .CDT_Unknown fun _ => true) CorsairSDK.new [] .ETC
    (by decide) rfl [sampleDevice .UnknownDevice 0] rfl (sampleDevice .UnknownDevice 0)
    (List.mem_singleton.mpr rfl)

/-- C26, as stated, fails: after the population of the session as constructed
from one device of the unknown type of the vendor, the device is in the list of
`ETC` and its `deviceType` is `UnknownDevice`; from one memory module, the device
is in the list of `RAM` and its `deviceType` is `ETC`. -/
theorem record_category_counterexample :
    devicesAt (setAllDeviceInfo (sampleVendor 1 .CDT_Unknown fun _ => true) CorsairSDK.new
      []).1.devices .ETC = some [sampleDevice .UnknownDevice 0] ∧
    (sampleDevice .UnknownDevice 0).deviceType ≠ .ETC ∧
    devicesAt (setAllDeviceInfo (sampleVendor 1 .CDT_MemoryModule fun _ => true) CorsairSDK.new
      []).1.devices .RAM = some [sampleDevice .ETC 0] ∧
    (sampleDevice .ETC 0).deviceType ≠ .RAM :=
  ⟨rfl, by decide, rfl, by decide⟩

end RgbOnRest
